import Mathlib

/-!
# Ticket Triage orchestrator — shallow embedding and verification

This file embeds the core of the ticket-triage workflow engine
(`app/graph/nodes.py`, `app/graph/workflow.py`, `app/graph/tools.py`,
`app/rag/rag_nodes.py`, `app/main.py`) in Lean 4 and proves properties of it.

Conventions of the embedding:
* LangGraph nodes `(State) -> partial update dict` become functions
  `GraphState → Update` (or `… → Except Unit Update` for nodes whose body can
  raise through a collaborator call).  An `Update` field of type
  `Option (Option α)` is `none` when the key is absent from the returned dict,
  `some none` when the dict maps it to Python `None`, and `some (some v)`
  otherwise.  `applyUpdate` is LangGraph channel merging (last write wins,
  `messages` via the `add_messages` appending reducer).
* External collaborators (the order table loaded from `orders.json`, the
  classification rule table from `issues.json`, the template table from
  `replies.json`, the text-generation LLM, the policy-retrieval service) are
  fields of an `Env` record.  A collaborator call that may raise is modelled
  as `Except Unit _`.
* Python dict payload fields never read by any embedded logic (order items,
  dates, amounts) are omitted from `Order`.
* `state.get(k, default)` on an `Optional` channel is modelled as
  `Option.getD`.
* The regexes of `extract_order_id` (`\b(ORD\d+)\b`, IGNORECASE) and
  `extract_email` (`[\w.-]+@[\w.-]+\.\w+`) are embedded as explicit scanners
  over `List Char` with `re.search` leftmost-match semantics.
-/

namespace Triage

/-! ## Data model (`app/schema.py`, `app/graph/state.py`) -/

/-- `ReviewStatus` enum from `app/schema.py`. -/
inductive ReviewStatus where
  | pending
  | approved
  | rejected
deriving DecidableEq, Repr

/-- `DraftScenario` enum from `app/schema.py`. -/
inductive DraftScenario where
  | reply
  | need_identifier
  | order_not_found
  | no_orders_found
  | confirm_order
deriving DecidableEq, Repr

/-- `RoutePath` enum from `app/schema.py`. -/
inductive RoutePath where
  | full
  | reclassify
  | resolve
  | draft
deriving DecidableEq, Repr

/-- Message role: `HumanMessage` vs `AIMessage` (langchain message types). -/
inductive Role where
  | human
  | ai
deriving DecidableEq, Repr

/-- One transcript entry of the `messages` channel. -/
structure Message where
  role : Role
  content : String
deriving DecidableEq, Repr

/-- Order record from `orders.json` (`app/schema.py` `Order`); payload fields
never read by the embedded logic (items, dates, total) are omitted. -/
structure Order where
  order_id : String
  customer_name : String
  email : String
  status : String
deriving DecidableEq, Repr

/-- `(keyword, issue_type, priority)` rule from `issues.json`;
`priority := none` models a rule dict without a `"priority"` key
(read as `rule.get("priority", 999)`). -/
structure IssueRule where
  keyword : String
  issue_type : String
  priority : Option Nat
deriving DecidableEq, Repr

/-- Reply template from `replies.json`. -/
structure Template where
  issue_type : String
  template : String
deriving DecidableEq, Repr

/-- A policy citation returned by the retrieval service (`app/rag`). -/
structure Citation where
  source : String
  title : String
  content : String
deriving DecidableEq, Repr

/-- One entry of `applied_policies` produced by `policy_evaluator`. -/
structure AppliedPolicy where
  source : String
  title : String
  cited_rule : String
  compliance : String
deriving DecidableEq, Repr

/-- `GraphState` TypedDict from `app/graph/state.py` (plus the RAG channels
written by `app/rag/rag_nodes.py`). -/
structure GraphState where
  messages : List Message
  ticket_text : String
  order_id : Option String
  email : Option String
  issue_type : Option String
  order_details : Option Order
  candidate_orders : Option (List Order)
  evidence : Option String
  recommendation : Option String
  draft_reply : Option String
  draft_scenario : Option DraftScenario
  route_path : Option RoutePath
  suggested_action : Option String
  review_status : Option ReviewStatus
  admin_feedback : Option String
  sender : Option String
  policy_citations : Option (List Citation)
  policy_evaluation : Option String
  applied_policies : Option (List AppliedPolicy)
deriving DecidableEq, Repr

/-- A partial state update (the dict a node returns).  Outer `none` = key
absent; `some none` = key explicitly set to Python `None` (clears the field);
`some (some v)` = key set to `v`.  `messages` is merged by appending
(`add_messages` reducer), so it is a plain list here. -/
structure Update where
  messages : List Message := []
  order_id : Option (Option String) := none
  email : Option (Option String) := none
  issue_type : Option (Option String) := none
  order_details : Option (Option Order) := none
  candidate_orders : Option (Option (List Order)) := none
  evidence : Option (Option String) := none
  recommendation : Option (Option String) := none
  draft_reply : Option (Option String) := none
  draft_scenario : Option (Option DraftScenario) := none
  route_path : Option (Option RoutePath) := none
  suggested_action : Option (Option String) := none
  review_status : Option (Option ReviewStatus) := none
  admin_feedback : Option (Option String) := none
  sender : Option (Option String) := none
  policy_citations : Option (Option (List Citation)) := none
  policy_evaluation : Option (Option String) := none
  applied_policies : Option (Option (List AppliedPolicy)) := none
deriving DecidableEq, Repr

/-- LangGraph channel merge: each key present in the update overwrites the
stored value; `messages` appends (the `add_messages` reducer);
`ticket_text` is only written by turn input, never by a node. -/
def applyUpdate (s : GraphState) (u : Update) : GraphState where
  messages := s.messages ++ u.messages
  ticket_text := s.ticket_text
  order_id := u.order_id.getD s.order_id
  email := u.email.getD s.email
  issue_type := u.issue_type.getD s.issue_type
  order_details := u.order_details.getD s.order_details
  candidate_orders := u.candidate_orders.getD s.candidate_orders
  evidence := u.evidence.getD s.evidence
  recommendation := u.recommendation.getD s.recommendation
  draft_reply := u.draft_reply.getD s.draft_reply
  draft_scenario := u.draft_scenario.getD s.draft_scenario
  route_path := u.route_path.getD s.route_path
  suggested_action := u.suggested_action.getD s.suggested_action
  review_status := u.review_status.getD s.review_status
  admin_feedback := u.admin_feedback.getD s.admin_feedback
  sender := u.sender.getD s.sender
  policy_citations := u.policy_citations.getD s.policy_citations
  policy_evaluation := u.policy_evaluation.getD s.policy_evaluation
  applied_policies := u.applied_policies.getD s.applied_policies

/-- `str.lower()` (kernel-reducible list-based equivalent of
`String.toLower`). -/
def strLower (s : String) : String :=
  String.mk (s.toList.map Char.toLower)

/-- Python string truthiness for `Optional[str]` state fields
(`if order_id:` treats `None` and `""` alike). -/
def pyTruthy (x : Option String) : Option String :=
  match x with
  | some s => if s.isEmpty then none else some s
  | none => none

/-! ## Identifier extraction (`extract_order_id` / `extract_email`,
`app/graph/nodes.py` lines 91-104) -/

/-- Regex word character (`\w`): letter, digit, or underscore. -/
def isWordChar (c : Char) : Bool :=
  c.isAlphanum || c = '_'

/-- A character allowed in the `[\w.-]` class of the email regex. -/
def isEmailChar (c : Char) : Bool :=
  isWordChar c || c = '.' || c = '-'

/-- `\b` before a match start: position 0 or previous char not a word char. -/
def boundaryBefore (prev : Option Char) : Bool :=
  match prev with
  | none => true
  | some c => !isWordChar c

/-- `\b` after the digits: end of input or next char not a word char. -/
def boundaryAfter (rest : List Char) : Bool :=
  match rest with
  | [] => true
  | c :: _ => !isWordChar c

/-- Try to match `ORD\d+\b` (IGNORECASE) at the head of `cs`; because a digit
run can only end at a word boundary or at a non-word char, the greedy match is
the only candidate and no backtracking is needed. -/
def ordMatchHere (cs : List Char) : Option (List Char) :=
  match cs with
  | c1 :: c2 :: c3 :: rest =>
    if c1.toLower = 'o' && c2.toLower = 'r' && c3.toLower = 'd' then
      let ds := rest.takeWhile Char.isDigit
      let rest' := rest.dropWhile Char.isDigit
      if !ds.isEmpty && boundaryAfter rest' then
        some (c1 :: c2 :: c3 :: ds)
      else none
    else none
  | _ => none

/-- `re.search` scan for `\b(ORD\d+)\b`: try each position left to right,
requiring a word boundary before the match. -/
def scanOrd (prev : Option Char) (cs : List Char) : Option (List Char) :=
  match cs with
  | [] => none
  | c :: rest =>
    match (if boundaryBefore prev then ordMatchHere (c :: rest) else none) with
    | some m => some m
    | none => scanOrd (some c) rest

/-- `extract_order_id`: leftmost `\b(ORD\d+)\b` match, uppercased
(`match.group(1).upper()`); `None` when no match. -/
def extract_order_id (text : String) : Option String :=
  (scanOrd none text.toList).map (fun m => String.mk (m.map Char.toUpper))

/-- Find the last `.` of the run that is followed by at least one `\w` char:
the backtracking-greedy split of `[\w.-]+\.\w+`.  Returns the part before
that dot and the maximal `\w+` run after it. -/
def lastDotSplit (l : List Char) : Option (List Char × List Char) :=
  match l with
  | [] => none
  | c :: rest =>
    match lastDotSplit rest with
    | some (b, w) => some (c :: b, w)
    | none =>
      if c = '.' then
        let w := rest.takeWhile isWordChar
        if w.isEmpty then none else some ([], w)
      else none

/-- Try to match `[\w.-]+@[\w.-]+\.\w+` at the head of `cs`.  The local part
must be the maximal `[\w.-]` run (since `@` is outside the class); the domain
part is resolved by `lastDotSplit` (greedy with backtracking). -/
def emailMatchHere (cs : List Char) : Option (List Char) :=
  let r1 := cs.takeWhile isEmailChar
  if r1.isEmpty then none
  else
    match cs.dropWhile isEmailChar with
    | [] => none
    | c :: rest2 =>
      if c = '@' then
        match lastDotSplit (rest2.takeWhile isEmailChar) with
        | some (b, w) => if b.isEmpty then none else some (r1 ++ '@' :: b ++ '.' :: w)
        | none => none
      else none

/-- `re.search` scan for the email pattern: try each position left to right. -/
def emailScan (cs : List Char) : Option (List Char) :=
  match cs with
  | [] => none
  | c :: rest =>
    match emailMatchHere (c :: rest) with
    | some m => some m
    | none => emailScan rest

/-- `extract_email`: leftmost `[\w.-]+@[\w.-]+\.\w+` match, lowercased
(`match.group(0).lower()`); `None` when no match. -/
def extract_email (text : String) : Option String :=
  (emailScan text.toList).map (fun m => String.mk (m.map Char.toLower))

/-! ## Collaborator environment (mock data plus external services) -/

/-- The parse of `policy_evaluator`'s LLM reply (`_safe_json_object` result):
what `parsed.get("applied_policies")` / `parsed.get("policy_evaluation")`
yield.  `{}` (on parse failure) is `⟨none, none⟩`. -/
structure ParsedEval where
  applied_policies : Option (List AppliedPolicy)
  policy_evaluation : Option String
deriving DecidableEq, Repr

/-- External collaborators and static tables the nodes consume:
`orders.json` / `issues.json` / `replies.json` data, the text-generation LLM
of `generate_draft_with_llm` (arguments: scenario, phase, state), the
retrieval service of `kb_orchestrator` (the `query_policies` / rerank block),
and the evaluation LLM call of `policy_evaluator`.  Collaborator calls that
can raise return `Except Unit _`. -/
structure Env where
  orders : List Order
  issues : List IssueRule
  templates : List Template
  gen : DraftScenario → String → GraphState → Except Unit String
  policyQuery : GraphState → Except Unit (List Citation)
  policyEval : GraphState → Except Unit ParsedEval

/-! ## Tools (`app/graph/tools.py`) -/

/-- `fetch_order`: first order whose `order_id` matches, else `None`. -/
def fetch_order (orders : List Order) (order_id : String) : Option Order :=
  orders.find? (fun o => o.order_id == order_id)

/-- `search_orders`: all orders matching the email, case-insensitive. -/
def search_orders (orders : List Order) (email : String) : List Order :=
  orders.filter (fun o => strLower o.email == strLower email)

/-! ## Nodes (`app/graph/nodes.py`) -/

/-- `ingest` (nodes.py lines 107-158): append the user message; extract
identifiers only when `order_details` is still missing; decide `route_path`
from which of `issue_type` / `order_details` is missing. -/
def ingest (s : GraphState) : Update :=
  let needs_order := s.order_details.isNone
  let needs_issue := s.issue_type.isNone || s.issue_type == some "unknown"
  let base : Update := { messages := [⟨Role.human, s.ticket_text⟩], sender := some (some "ingest") }
  let base :=
    if needs_order then
      let base :=
        match extract_order_id s.ticket_text with
        | some oid => { base with order_id := some (some oid) }
        | none => base
      match extract_email s.ticket_text with
      | some em => { base with email := some (some em) }
      | none => base
    else base
  if needs_order && needs_issue then
    { base with route_path := some (some RoutePath.full) }
  else if needs_order then
    { base with route_path := some (some RoutePath.resolve) }
  else if needs_issue then
    { base with route_path := some (some RoutePath.reclassify) }
  else
    { base with route_path := some (some RoutePath.draft) }

/-- One entry of the `matches` list built by `classify_issue`
(keyword already lower-cased, priority already defaulted to 999). -/
structure MatchItem where
  keyword : String
  issue_type : String
  priority : Nat
deriving DecidableEq, Repr

/-- Python `needle in hay` on strings: contiguous-substring test. -/
def strContains (hay needle : String) : Bool :=
  go needle.toList hay.toList
where
  /-- `needle` occurs as a contiguous sublist of `hay`. -/
  go (needle hay : List Char) : Bool :=
    match hay with
    | [] => needle.isEmpty
    | _ :: t => needle.isPrefixOf hay || go needle t

/-- The `matches` list of `classify_issue`: rules whose lower-cased keyword
is a substring of the lower-cased ticket text. -/
def classify_matches (issues : List IssueRule) (ticket_lower : String) : List MatchItem :=
  issues.filterMap (fun rule =>
    let keyword := strLower rule.keyword
    if strContains ticket_lower keyword then
      some ⟨keyword, rule.issue_type, rule.priority.getD 999⟩
    else none)

/-- Strict comparison of the `min` keys `(priority, -len(keyword))`:
`keyLt a b` holds when `a`'s key is strictly smaller than `b`'s. -/
def keyLt (a b : MatchItem) : Bool :=
  a.priority < b.priority ||
    (a.priority == b.priority && b.keyword.length < a.keyword.length)

/-- Python `min(x :: xs, key=...)`: fold keeping the current best, replacing
only on a strictly smaller key (so the first minimum wins ties). -/
def pyMin (x : MatchItem) (xs : List MatchItem) : MatchItem :=
  xs.foldl (fun best y => if keyLt y best then y else best) x

/-- `classify_issue` (nodes.py lines 161-208): priority-based keyword
matching with longer-keyword tie-break; `"unknown"` when nothing matches. -/
def classify_issue (env : Env) (s : GraphState) : Update :=
  let ticket_text := strLower s.ticket_text
  match classify_matches env.issues ticket_text with
  | [] =>
    { issue_type := some (some "unknown"),
      evidence := some (some "No matching keywords found"),
      recommendation := some (some "Recommend unknown resolution"),
      sender := some (some "classify_issue") }
  | m :: ms =>
    let best := pyMin m ms
    { issue_type := some (some best.issue_type),
      evidence := some (some ("Matched keyword: " ++ best.keyword
        ++ " (priority: " ++ toString best.priority ++ ")")),
      recommendation := some (some ("Recommend " ++ best.issue_type ++ " resolution")),
      sender := some (some "classify_issue") }

/-- `resolve_order` (nodes.py lines 211-290): by-id lookup when `order_id` is
truthy, else email search (0/1/N results), else `NEED_IDENTIFIER`. -/
def resolve_order (env : Env) (s : GraphState) : Update :=
  match pyTruthy s.order_id with
  | some order_id =>
    match fetch_order env.orders order_id with
    | some order_details =>
      { order_details := some (some order_details),
        draft_scenario := some (some DraftScenario.reply),
        sender := some (some "resolve_order") }
    | none =>
      { order_details := some none,
        draft_scenario := some (some DraftScenario.order_not_found),
        sender := some (some "resolve_order") }
  | none =>
    match pyTruthy s.email with
    | some email =>
      let candidates := search_orders env.orders email
      match candidates with
      | [] =>
        { candidate_orders := some (some []),
          draft_scenario := some (some DraftScenario.no_orders_found),
          sender := some (some "resolve_order") }
      | [order] =>
        { order_id := some (some order.order_id),
          order_details := some (some order),
          candidate_orders := some (some [order]),
          draft_scenario := some (some DraftScenario.reply),
          sender := some (some "resolve_order") }
      | _ =>
        { candidate_orders := some (some candidates),
          draft_scenario := some (some DraftScenario.confirm_order),
          sender := some (some "resolve_order") }
    | none =>
      { draft_scenario := some (some DraftScenario.need_identifier),
        sender := some (some "resolve_order") }

/-- Python `str.replace(pat, sub)` for a non-empty `pat`: replace all
non-overlapping occurrences left to right (fuel-structured so it
kernel-reduces; `fuel` is the haystack length, and each step consumes at
least one character). -/
def replaceGo (pat sub : List Char) : Nat → List Char → List Char
  | _, [] => []
  | 0, cs => cs
  | fuel + 1, c :: rest =>
    if pat.isPrefixOf (c :: rest) then
      sub ++ replaceGo pat sub fuel (List.drop (pat.length - 1) rest)
    else
      c :: replaceGo pat sub fuel rest

/-- `str.replace` on strings. -/
def strReplace (s pat sub : String) : String :=
  String.mk (replaceGo pat.toList sub.toList s.toList.length s.toList)

/-- `template.replace("\x7b\x7bcustomer_name\x7d\x7d", ...)
.replace("\x7b\x7border_id\x7d\x7d", ...)` in `prepare_action`. -/
def fillTemplate (tpl customer_name order_id : String) : String :=
  strReplace (strReplace tpl "\x7b\x7bcustomer_name\x7d\x7d" customer_name)
    "\x7b\x7border_id\x7d\x7d" order_id

/-- `prepare_action` (nodes.py lines 293-328): fill the template keyed by
`issue_type` (generic fallback string when none matches) and set
`review_status = PENDING`. -/
def prepare_action (env : Env) (s : GraphState) : Update :=
  let issue_type := s.issue_type.getD "unknown"
  let order_id := s.order_id
  let customer_name :=
    match s.order_details with
    | some od => od.customer_name
    | none => "Customer"
  let suggested_action :=
    match env.templates.find? (fun t => t.issue_type == issue_type) with
    | some t => fillTemplate t.template customer_name ((pyTruthy order_id).getD "N/A")
    | none => "Process " ++ issue_type ++ " request for order "
        ++ (pyTruthy order_id).getD "N/A"
  { suggested_action := some (some suggested_action),
    review_status := some (some ReviewStatus.pending),
    sender := some (some "prepare_action") }

/-- `kb_orchestrator` (rag_nodes.py lines 54-90): empty citations for
non-REPLY scenarios; otherwise the retrieval collaborator, with the
`try/except` degrading to an empty list. -/
def kb_orchestrator (env : Env) (s : GraphState) : Update :=
  if s.draft_scenario != some DraftScenario.reply then
    { policy_citations := some (some []), sender := some (some "kb_orchestrator") }
  else
    let citations :=
      match env.policyQuery s with
      | Except.ok cs => cs
      | Except.error _ => []
    { policy_citations := some (some citations), sender := some (some "kb_orchestrator") }

/-- Fallback `applied_policies` list built by `policy_evaluator` from the raw
citations when the LLM reply has no usable list. -/
def fallbackPolicies (citations : List Citation) : List AppliedPolicy :=
  citations.map (fun item =>
    { source := item.source, title := item.title,
      cited_rule := item.content, compliance := "requires_review" })

/-- `policy_evaluator` (rag_nodes.py lines 93-178): no citations means the
fixed no-citations update; otherwise evaluate via the LLM (`try/except`
degrading to an empty parse), fall back field-wise, and append the
evaluation to `suggested_action`. -/
def policy_evaluator (env : Env) (s : GraphState) : Update :=
  let citations := s.policy_citations.getD []
  let suggested_action := s.suggested_action.getD ""
  if citations.isEmpty then
    { policy_evaluation := some (some "No policy citations were available for this issue."),
      applied_policies := some (some []),
      sender := some (some "policy_evaluator") }
  else
    let parsed :=
      match env.policyEval s with
      | Except.ok p => p
      | Except.error _ => ⟨none, none⟩
    let applied_policies :=
      match parsed.applied_policies with
      | some (p :: ps) => p :: ps
      | _ => fallbackPolicies citations
    let policy_evaluation :=
      match parsed.policy_evaluation with
      | some e => if e.trim.isEmpty then "Policy review completed. See applied_policies for cited rules." else e
      | none => "Policy review completed. See applied_policies for cited rules."
    let enriched_action := suggested_action ++ "\n\nPolicy evaluation: "
      ++ policy_evaluation ++ "\nApplied policies: "
      ++ String.intercalate ", " ((applied_policies.map (fun p => p.source)).dedup)
    { suggested_action := some (some enriched_action),
      policy_evaluation := some (some policy_evaluation),
      applied_policies := some (some applied_policies),
      sender := some (some "policy_evaluator") }

/-- `f"{x}"` for an `Optional[str]`: Python renders `None` as `"None"`. -/
def showOptStr (x : Option String) : String :=
  match x with
  | some s => s
  | none => "None"

/-- The update of `draft_reply`'s `phase = "unknown"` branch
(nodes.py lines 615-628). -/
def draft_unknown_update (draft : String) (s : GraphState) : Update :=
  { draft_reply := some (some draft),
    draft_scenario := some (some DraftScenario.need_identifier),
    evidence := some (some ("Scenario: need_issue_details, Order ID: " ++ showOptStr s.order_id)),
    recommendation := some (some "Awaiting issue details from customer"),
    messages := [⟨Role.ai, draft⟩],
    review_status := some none,
    sender := some (some "draft_reply") }

/-- The update of `draft_reply`'s `phase = "pending"` branch
(nodes.py lines 630-646). -/
def draft_pending_update (draft issue_type : String) (s : GraphState) : Update :=
  let evidence := "Scenario: reply, Issue Type: " ++ issue_type
    ++ ", Order ID: " ++ showOptStr s.order_id
  let evidence :=
    match s.order_details with
    | some od => evidence ++ ", Status: " ++ od.status
    | none => evidence
  { draft_reply := some (some draft),
    evidence := some (some evidence),
    recommendation := some (some ("Awaiting admin approval for " ++ issue_type ++ " resolution")),
    messages := [⟨Role.ai, draft⟩],
    review_status := some (some ReviewStatus.pending),
    sender := some (some "draft_reply") }

/-- The update of `draft_reply`'s `phase = "approved"` branch
(nodes.py lines 648-663). -/
def draft_approved_update (draft issue_type : String) (s : GraphState) : Update :=
  { draft_reply := some (some draft),
    evidence := some (some ("Scenario: reply, Issue Type: " ++ issue_type
      ++ ", Order ID: " ++ showOptStr s.order_id ++ ", Admin: APPROVED")),
    recommendation := some (some ("Approved " ++ issue_type ++ " resolution for order "
      ++ showOptStr s.order_id)),
    messages := [⟨Role.ai, draft⟩],
    review_status := some (some ReviewStatus.approved),
    sender := some (some "draft_reply") }

/-- The update of `draft_reply`'s `phase = "rejected"` branch
(nodes.py lines 665-680). -/
def draft_rejected_update (draft issue_type : String) (s : GraphState) : Update :=
  { draft_reply := some (some draft),
    evidence := some (some ("Scenario: reply, Issue Type: " ++ issue_type
      ++ ", Order ID: " ++ showOptStr s.order_id ++ ", Admin: REJECTED")),
    recommendation := some (some ("Rejected " ++ issue_type ++ " request for order "
      ++ showOptStr s.order_id)),
    messages := [⟨Role.ai, draft⟩],
    review_status := some (some ReviewStatus.rejected),
    sender := some (some "draft_reply") }

/-- Scenario name string (`scenario.value`). -/
def scenarioValue (sc : DraftScenario) : String :=
  match sc with
  | DraftScenario.reply => "reply"
  | DraftScenario.need_identifier => "need_identifier"
  | DraftScenario.order_not_found => "order_not_found"
  | DraftScenario.no_orders_found => "no_orders_found"
  | DraftScenario.confirm_order => "confirm_order"

/-- The update of `draft_reply`'s non-REPLY branch (nodes.py lines 682-698). -/
def draft_nonreply_update (draft issue_type : String) (sc : DraftScenario) (s : GraphState) : Update :=
  let evidence := "Scenario: " ++ scenarioValue sc ++ ", Issue Type: " ++ issue_type
  let evidence :=
    match pyTruthy s.order_id with
    | some oid => evidence ++ ", Order ID: " ++ oid
    | none => evidence
  { draft_reply := some (some draft),
    evidence := some (some evidence),
    recommendation := some (some ("Awaiting additional information ("
      ++ scenarioValue sc ++ ")")),
    messages := [⟨Role.ai, draft⟩],
    review_status := some none,
    sender := some (some "draft_reply") }

/-- `draft_reply` (nodes.py lines 582-698): the four-phase REPLY sub-state
machine (unknown / pending / approved / rejected) plus the non-REPLY
clarification branch.  `_coerce_draft_scenario(state.get(...))` turns an
unset scenario into `REPLY` (`Option.getD .reply`); a raising LLM collaborator
makes the whole step fail (`Except.error`). -/
def draft_reply (env : Env) (s : GraphState) : Except Unit Update :=
  let scenario := s.draft_scenario.getD DraftScenario.reply
  let issue_type := s.issue_type.getD "unknown"
  let review_status := s.review_status
  if scenario = DraftScenario.reply then
    if issue_type = "unknown" then
      (env.gen scenario "unknown" s).map (fun d => draft_unknown_update d s)
    else if review_status = some ReviewStatus.pending || review_status = none then
      (env.gen scenario "pending" s).map (fun d => draft_pending_update d issue_type s)
    else if review_status = some ReviewStatus.approved then
      (env.gen scenario "approved" s).map (fun d => draft_approved_update d issue_type s)
    else
      (env.gen scenario "rejected" s).map (fun d => draft_rejected_update d issue_type s)
  else
    (env.gen scenario "non_reply" s).map (fun d => draft_nonreply_update d issue_type scenario s)

/-- `admin_review` (nodes.py lines 701-722): pass-through, only `sender`. -/
def admin_review (_s : GraphState) : Update :=
  { sender := some (some "admin_review") }

/-- `finalize` (nodes.py lines 725-749): append the `[FINAL]` marker message,
preserving `review_status`. -/
def finalize (s : GraphState) : Update :=
  { messages := [⟨Role.ai, "[FINAL] " ++ s.draft_reply.getD ""⟩],
    sender := some (some "finalize") }

/-! ## Graph wiring and executor (`app/graph/workflow.py`, `app/main.py`) -/

/-- The named nodes of the graph (`create_graph`). -/
inductive Node where
  | ingest
  | classify_issue
  | resolve_order
  | prepare_action
  | kb_orchestrator
  | policy_evaluator
  | draft_reply
  | admin_review
  | finalize
deriving DecidableEq, Repr

/-- `route_after_ingest` (workflow.py lines 35-57). -/
def route_after_ingest (s : GraphState) : Node :=
  match s.route_path.getD RoutePath.full with
  | RoutePath.full => Node.classify_issue
  | RoutePath.reclassify => Node.classify_issue
  | RoutePath.resolve => Node.resolve_order
  | RoutePath.draft => Node.draft_reply

/-- `route_after_draft` (workflow.py lines 60-89): REPLY goes to the admin
checkpoint (first run) or to `finalize` (after a decision); every other
scenario ends the run (`none` = END). -/
def route_after_draft (s : GraphState) : Option Node :=
  if s.draft_scenario = some DraftScenario.reply then
    if s.review_status = some ReviewStatus.approved
        || s.review_status = some ReviewStatus.rejected then
      some Node.finalize
    else
      some Node.admin_review
  else
    none

/-- `route_to_rag` (workflow.py lines 92-102). -/
def route_to_rag (s : GraphState) : Node :=
  if s.draft_scenario = some DraftScenario.reply then
    Node.kb_orchestrator
  else
    Node.draft_reply

/-- The edge structure of `create_graph` (workflow.py lines 123-223): the
node to run after `n`, given the state after `n`'s update; `none` is END. -/
def successor (n : Node) (s : GraphState) : Option Node :=
  match n with
  | Node.ingest => some (route_after_ingest s)
  | Node.classify_issue => some Node.resolve_order
  | Node.resolve_order => some Node.prepare_action
  | Node.prepare_action => some (route_to_rag s)
  | Node.kb_orchestrator => some Node.policy_evaluator
  | Node.policy_evaluator => some Node.draft_reply
  | Node.draft_reply => route_after_draft s
  | Node.admin_review => some Node.draft_reply
  | Node.finalize => none

/-- Run one node, producing its partial update (or the collaborator
failure escaping the step). -/
def runNode (env : Env) (n : Node) (s : GraphState) : Except Unit Update :=
  match n with
  | Node.ingest => Except.ok (ingest s)
  | Node.classify_issue => Except.ok (classify_issue env s)
  | Node.resolve_order => Except.ok (resolve_order env s)
  | Node.prepare_action => Except.ok (prepare_action env s)
  | Node.kb_orchestrator => Except.ok (kb_orchestrator env s)
  | Node.policy_evaluator => Except.ok (policy_evaluator env s)
  | Node.draft_reply => draft_reply env s
  | Node.admin_review => Except.ok (admin_review s)
  | Node.finalize => Except.ok (finalize s)

/-- Apply one node at the step boundary: the update is committed atomically;
a failing step commits nothing. -/
def applyStep (env : Env) (n : Node) (s : GraphState) : GraphState :=
  match runNode env n s with
  | Except.ok u => applyUpdate s u
  | Except.error _ => s

/-- `interrupt_before=["admin_review"]` (app/main.py `compile_graph` call). -/
def interruptBefore (n : Node) : Bool :=
  n = Node.admin_review

/-- The outcome of one engine run: final state, the step the run is
suspended before (`none` when terminal), and the executed nodes in order. -/
structure RunResult where
  state : GraphState
  pending : Option Node
  trace : List Node
deriving DecidableEq, Repr

/-- The executor: run the node, merge its update, follow the edges, stop at
END or immediately before an interrupted node (persisting it as pending).
`fuel` bounds the walk (every run of this graph is short). -/
def runLoop (env : Env) : Nat → GraphState → Node → Except Unit RunResult
  | 0, _, _ => Except.error ()
  | fuel + 1, s, n =>
    match runNode env n s with
    | Except.error e => Except.error e
    | Except.ok u =>
      let s' := applyUpdate s u
      match successor n s' with
      | none => Except.ok ⟨s', none, [n]⟩
      | some m =>
        if interruptBefore m then Except.ok ⟨s', some m, [n]⟩
        else
          match runLoop env fuel s' m with
          | Except.error e => Except.error e
          | Except.ok r => Except.ok ⟨r.state, r.pending, n :: r.trace⟩

/-- Fuel that covers every run of this graph (the longest turn executes six
nodes). -/
def defaultFuel : Nat := 20

/-- One inbound user turn (`POST /triage/invoke` follow-up path): merge the
new `ticket_text` into the checkpointed state and run from `ingest`. -/
def startTurn (env : Env) (s : GraphState) (ticket_text : String) : Except Unit RunResult :=
  runLoop env defaultFuel { s with ticket_text := ticket_text } Node.ingest

/-- An admin decision (`POST /admin/review`): `update_state` injects
`review_status` / `admin_feedback` into the suspended state, then the run
resumes from the pending node. -/
def submitReview (env : Env) (s : GraphState) (pending : Node)
    (status : ReviewStatus) (feedback : Option String) : Except Unit RunResult :=
  runLoop env defaultFuel
    { s with review_status := some status, admin_feedback := feedback } pending

/-- The initial channel state of a brand-new thread
(`app/main.py` `input_state` for a new conversation). -/
def initState (ticket_text : String) (order_id : Option String) : GraphState :=
  { messages := [], ticket_text := ticket_text, order_id := order_id,
    email := none, issue_type := none, order_details := none,
    candidate_orders := none, evidence := none, recommendation := none,
    draft_reply := none, draft_scenario := none, route_path := none,
    suggested_action := none, review_status := none, admin_feedback := none,
    sender := none, policy_citations := none, policy_evaluation := none,
    applied_policies := none }

/-- `∃ d, env.gen … = ok d` for every call: the text-generation collaborator
does not raise. -/
def GenTotal (env : Env) : Prop :=
  ∀ sc ph st, ∃ d, env.gen sc ph st = Except.ok d

/-! ## Concrete fixtures (a small `orders.json` / `issues.json` /
`replies.json` instance and stub collaborators, used by concrete runs) -/

/-- A shipped order of Alice, the only order under her email. -/
def sampleOrder1 : Order := ⟨"ORD1001", "Alice", "alice@example.com", "shipped"⟩

/-- First of Bob's two orders. -/
def sampleOrder2 : Order := ⟨"ORD2002", "Bob", "bob@example.com", "delivered"⟩

/-- Second of Bob's two orders. -/
def sampleOrder3 : Order := ⟨"ORD3003", "Bob", "bob@example.com", "processing"⟩

/-- A small order table. -/
def sampleOrders : List Order := [sampleOrder1, sampleOrder2, sampleOrder3]

/-- Classification rules with the equal-priority pair
`"charge"` / `"duplicate charge"` from the spec's tie-break example. -/
def sampleIssues : List IssueRule :=
  [⟨"refund", "refund_request", some 1⟩,
   ⟨"charge", "billing_issue", some 2⟩,
   ⟨"duplicate charge", "duplicate_charge", some 2⟩]

/-- One reply template. -/
def sampleTemplates : List Template :=
  [⟨"refund_request", "Hi \x7b\x7bcustomer_name\x7d\x7d, refund for \x7b\x7border_id\x7d\x7d."⟩]

/-- Environment whose collaborators always succeed (the LLM returns a
phase-tagged stub text, retrieval returns no citations). -/
def sampleEnv : Env :=
  { orders := sampleOrders, issues := sampleIssues, templates := sampleTemplates,
    gen := fun _ ph _ => Except.ok ("gen-" ++ ph),
    policyQuery := fun _ => Except.ok [],
    policyEval := fun _ => Except.ok ⟨none, none⟩ }

/-- Environment whose text-generation collaborator raises on every call. -/
def failGenEnv : Env :=
  { sampleEnv with gen := fun _ _ _ => Except.error () }

/-- `sampleEnv`'s generator never raises. -/
theorem sampleEnv_genTotal : GenTotal sampleEnv :=
  fun _ ph _ => ⟨"gen-" ++ ph, rfl⟩

/-! ## Claim C3 — order resolution branching -/

/-- **C3** For every state entering `resolve_order`: a truthy `order_id` is
looked up by id (found ⇒ `order_details` set and scenario `REPLY`; not found
⇒ `order_details` cleared to null and scenario `ORDER_NOT_FOUND`); otherwise
a truthy `email` is searched case-insensitively (0 matches ⇒
`NO_ORDERS_FOUND` with `order_id` untouched; exactly 1 ⇒ auto-select that
order, setting `order_id`, `order_details` and scenario `REPLY`; ≥ 2 ⇒
`CONFIRM_ORDER` with `candidate_orders` holding all matches); with neither
identifier the scenario becomes `NEED_IDENTIFIER`. -/
theorem resolve_order_branching (env : Env) (s : GraphState) :
    (∀ em, search_orders env.orders em
        = env.orders.filter (fun o => strLower o.email == strLower em)) ∧
    (∀ oid od, pyTruthy s.order_id = some oid →
      fetch_order env.orders oid = some od →
      (resolve_order env s).order_details = some (some od) ∧
      (resolve_order env s).draft_scenario = some (some DraftScenario.reply)) ∧
    (∀ oid, pyTruthy s.order_id = some oid →
      fetch_order env.orders oid = none →
      (resolve_order env s).order_details = some none ∧
      (resolve_order env s).draft_scenario = some (some DraftScenario.order_not_found)) ∧
    (∀ em, pyTruthy s.order_id = none → pyTruthy s.email = some em →
      search_orders env.orders em = [] →
      (resolve_order env s).draft_scenario = some (some DraftScenario.no_orders_found) ∧
      (resolve_order env s).order_id = none ∧
      (applyUpdate s (resolve_order env s)).order_id = s.order_id) ∧
    (∀ em o, pyTruthy s.order_id = none → pyTruthy s.email = some em →
      search_orders env.orders em = [o] →
      (resolve_order env s).order_id = some (some o.order_id) ∧
      (resolve_order env s).order_details = some (some o) ∧
      (resolve_order env s).draft_scenario = some (some DraftScenario.reply)) ∧
    (∀ em o1 o2 rest, pyTruthy s.order_id = none → pyTruthy s.email = some em →
      search_orders env.orders em = o1 :: o2 :: rest →
      (resolve_order env s).candidate_orders = some (some (o1 :: o2 :: rest)) ∧
      (resolve_order env s).draft_scenario = some (some DraftScenario.confirm_order)) ∧
    (pyTruthy s.order_id = none → pyTruthy s.email = none →
      (resolve_order env s).draft_scenario = some (some DraftScenario.need_identifier)) := by
  refine ⟨fun em => rfl, ?_, ?_, ?_, ?_, ?_, ?_⟩
  · intro oid od h1 h2
    simp [resolve_order, h1, h2]
  · intro oid h1 h2
    simp [resolve_order, h1, h2]
  · intro em h1 h2 h3
    simp [resolve_order, applyUpdate, h1, h2, h3]
  · intro em o h1 h2 h3
    simp [resolve_order, h1, h2, h3]
  · intro em o1 o2 rest h1 h2 h3
    simp [resolve_order, h1, h2, h3]
  · intro h1 h2
    simp [resolve_order, h1, h2]

/-- States exercising each `resolve_order` branch at concrete inputs. -/
def c3FoundState : GraphState := { initState "t" none with order_id := some "ORD1001" }

/-- Concrete state with an unknown order id. -/
def c3MissState : GraphState := { initState "t" none with order_id := some "ORD9999" }

/-- Concrete state with an email having exactly one match. -/
def c3OneState : GraphState := { initState "t" none with email := some "Alice@Example.COM" }

/-- Concrete state with an email having two matches. -/
def c3TwoState : GraphState := { initState "t" none with email := some "bob@example.com" }

/-- Concrete state with an email having no matches. -/
def c3ZeroState : GraphState := { initState "t" none with email := some "nobody@example.com" }

/-- Witness for `resolve_order_branching`: all six branches discharged at
concrete inputs over `sampleEnv` (the one-match search is case-insensitive:
the state's email is `"Alice@Example.COM"`). -/
theorem resolve_order_branching_witness :
    ((resolve_order sampleEnv c3FoundState).order_details = some (some sampleOrder1) ∧
      (resolve_order sampleEnv c3FoundState).draft_scenario = some (some DraftScenario.reply)) ∧
    ((resolve_order sampleEnv c3MissState).order_details = some none ∧
      (resolve_order sampleEnv c3MissState).draft_scenario = some (some DraftScenario.order_not_found)) ∧
    ((resolve_order sampleEnv c3ZeroState).draft_scenario = some (some DraftScenario.no_orders_found) ∧
      (resolve_order sampleEnv c3ZeroState).order_id = none ∧
      (applyUpdate c3ZeroState (resolve_order sampleEnv c3ZeroState)).order_id = c3ZeroState.order_id) ∧
    ((resolve_order sampleEnv c3OneState).order_id = some (some "ORD1001") ∧
      (resolve_order sampleEnv c3OneState).order_details = some (some sampleOrder1) ∧
      (resolve_order sampleEnv c3OneState).draft_scenario = some (some DraftScenario.reply)) ∧
    ((resolve_order sampleEnv c3TwoState).candidate_orders
        = some (some [sampleOrder2, sampleOrder3]) ∧
      (resolve_order sampleEnv c3TwoState).draft_scenario = some (some DraftScenario.confirm_order)) ∧
    (resolve_order sampleEnv { initState "t" none with order_id := some "" }).draft_scenario
      = some (some DraftScenario.need_identifier) := by
  refine ⟨?_, ?_, ?_, ?_, ?_, ?_⟩
  · exact (resolve_order_branching sampleEnv c3FoundState).2.1 "ORD1001" sampleOrder1
      (by decide) (by decide)
  · exact (resolve_order_branching sampleEnv c3MissState).2.2.1 "ORD9999"
      (by decide) (by decide)
  · exact (resolve_order_branching sampleEnv c3ZeroState).2.2.2.1 "nobody@example.com"
      (by decide) (by decide) (by decide)
  · have h := (resolve_order_branching sampleEnv c3OneState).2.2.2.2.1 "Alice@Example.COM"
      sampleOrder1 (by decide) (by decide) (by decide)
    exact ⟨h.1, h.2.1, h.2.2⟩
  · exact (resolve_order_branching sampleEnv c3TwoState).2.2.2.2.2.1 "bob@example.com"
      sampleOrder2 sampleOrder3 [] (by decide) (by decide) (by decide)
  · exact (resolve_order_branching sampleEnv _).2.2.2.2.2.2 (by decide) (by decide)

/-! ## Claim C9 — the `candidate_orders` population rule -/

/-- **C9 counterexample** The claim says `candidate_orders` is populated
(non-null) only when an email search yields more than one match, and that a
zero- or one-match search leaves it unset.  At a concrete one-match state the
update sets `candidate_orders` to the non-null singleton list (and a
zero-match search sets it to the non-null empty list). -/
theorem candidate_orders_claim_counterexample :
    pyTruthy c3OneState.order_id = none ∧
    pyTruthy c3OneState.email = some "Alice@Example.COM" ∧
    search_orders sampleEnv.orders "Alice@Example.COM" = [sampleOrder1] ∧
    (resolve_order sampleEnv c3OneState).candidate_orders = some (some [sampleOrder1]) ∧
    (resolve_order sampleEnv c3OneState).candidate_orders ≠ none ∧
    (applyUpdate c3OneState (resolve_order sampleEnv c3OneState)).candidate_orders
      = some [sampleOrder1] ∧
    (resolve_order sampleEnv c3ZeroState).candidate_orders = some (some []) ∧
    (resolve_order sampleEnv c3ZeroState).candidate_orders ≠ none := by
  decide

/-- **C9 amended** Every email-search resolution turn writes
`candidate_orders`, and writes it to the full match list (empty for zero
matches, a singleton for one); the scenario is `CONFIRM_ORDER` exactly when
that list has at least two entries; the by-id and no-identifier paths leave
`candidate_orders` untouched. -/
theorem candidate_orders_population (env : Env) (s : GraphState) :
    (∀ em, pyTruthy s.order_id = none → pyTruthy s.email = some em →
      (resolve_order env s).candidate_orders = some (some (search_orders env.orders em)) ∧
      ((resolve_order env s).draft_scenario = some (some DraftScenario.confirm_order) ↔
        2 ≤ (search_orders env.orders em).length)) ∧
    (∀ oid, pyTruthy s.order_id = some oid →
      (resolve_order env s).candidate_orders = none) ∧
    (pyTruthy s.order_id = none → pyTruthy s.email = none →
      (resolve_order env s).candidate_orders = none) := by
  refine ⟨?_, ?_, ?_⟩
  · intro em h1 h2
    cases h3 : search_orders env.orders em with
    | nil => simp [resolve_order, h1, h2, h3]
    | cons o rest =>
      cases rest with
      | nil => simp [resolve_order, h1, h2, h3]
      | cons o2 rest2 => simp [resolve_order, h1, h2, h3]
  · intro oid h1
    cases h2 : fetch_order env.orders oid <;> simp [resolve_order, h1, h2]
  · intro h1 h2
    simp [resolve_order, h1, h2]

/-- Witness for `candidate_orders_population` at the concrete one-match,
by-id, and no-identifier states. -/
theorem candidate_orders_population_witness :
    ((resolve_order sampleEnv c3OneState).candidate_orders
        = some (some (search_orders sampleEnv.orders "Alice@Example.COM")) ∧
      ((resolve_order sampleEnv c3OneState).draft_scenario
          = some (some DraftScenario.confirm_order) ↔
        2 ≤ (search_orders sampleEnv.orders "Alice@Example.COM").length)) ∧
    (resolve_order sampleEnv c3FoundState).candidate_orders = none ∧
    (resolve_order sampleEnv (initState "t" none)).candidate_orders = none := by
  refine ⟨?_, ?_, ?_⟩
  · exact (candidate_orders_population sampleEnv c3OneState).1 "Alice@Example.COM"
      (by decide) (by decide)
  · exact (candidate_orders_population sampleEnv c3FoundState).2.1 "ORD1001" (by decide)
  · exact (candidate_orders_population sampleEnv (initState "t" none)).2.2
      (by decide) (by decide)

/-! ## Claim C10 — the unknown phase overwrites the stored scenario -/

/-- **C10** In `draft_reply`, whenever the scenario is `REPLY` but
`issue_type` is unset or `"unknown"`, the returned update overwrites
`draft_scenario` to `NEED_IDENTIFIER` and clears `review_status`, so the
stored scenario after the step is no longer `REPLY` while `order_details`
remains whatever it was. -/
theorem draft_unknown_overwrites_scenario (env : Env) (s : GraphState) (d : String)
    (hsc : s.draft_scenario = some DraftScenario.reply)
    (hit : s.issue_type = none ∨ s.issue_type = some "unknown")
    (hgen : env.gen DraftScenario.reply "unknown" s = Except.ok d) :
    draft_reply env s = Except.ok (draft_unknown_update d s) ∧
    (draft_unknown_update d s).draft_scenario = some (some DraftScenario.need_identifier) ∧
    (draft_unknown_update d s).review_status = some none ∧
    (applyUpdate s (draft_unknown_update d s)).draft_scenario
      = some DraftScenario.need_identifier ∧
    (applyUpdate s (draft_unknown_update d s)).draft_scenario ≠ some DraftScenario.reply ∧
    (applyUpdate s (draft_unknown_update d s)).review_status = none ∧
    (applyUpdate s (draft_unknown_update d s)).order_details = s.order_details := by
  have hd : draft_reply env s = Except.ok (draft_unknown_update d s) := by
    rcases hit with h | h <;> simp [draft_reply, hsc, h, hgen, Except.map]
  refine ⟨hd, rfl, rfl, ?_, ?_, ?_, ?_⟩ <;>
    simp [applyUpdate, draft_unknown_update]

/-- A REPLY-scenario state whose order is resolved but whose issue is still
`"unknown"`. -/
def c10State : GraphState :=
  { initState "it is broken" none with
    draft_scenario := some DraftScenario.reply,
    issue_type := some "unknown",
    order_id := some "ORD1001",
    order_details := some sampleOrder1 }

/-- Witness for `draft_unknown_overwrites_scenario` at `c10State` over
`sampleEnv`. -/
theorem draft_unknown_overwrites_scenario_witness :
    draft_reply sampleEnv c10State = Except.ok (draft_unknown_update "gen-unknown" c10State) ∧
    (applyUpdate c10State (draft_unknown_update "gen-unknown" c10State)).draft_scenario
      = some DraftScenario.need_identifier ∧
    (applyUpdate c10State (draft_unknown_update "gen-unknown" c10State)).order_details
      = some sampleOrder1 := by
  have h := draft_unknown_overwrites_scenario sampleEnv c10State "gen-unknown"
    rfl (Or.inr rfl) rfl
  exact ⟨h.1, h.2.2.2.1, h.2.2.2.2.2.2⟩

/-! ## Claim C5 — the fresh-start property -/

/-- A state whose conversation is fully resolved around `ORD1001`, receiving
a new turn whose ticket text carries the different valid order id `ORD2002`. -/
def c5State : GraphState :=
  { initState "Actually this is about ORD2002 instead" none with
    order_id := some "ORD1001",
    order_details := some sampleOrder1,
    issue_type := some "refund_request",
    draft_scenario := some DraftScenario.reply }

/-- **C5 counterexample** The claim says a new turn carrying a valid order id
different from the resolved one clears `order_details`, `candidate_orders`,
`issue_type` and `scenario` before re-running classification/resolution.  At
`c5State` the ticket does carry the different valid id `ORD2002` (its lookup
succeeds), yet the ingest update clears nothing, performs no extraction, and
routes the turn to `DRAFT`. -/
theorem fresh_start_claim_counterexample :
    extract_order_id c5State.ticket_text = some "ORD2002" ∧
    c5State.order_id = some "ORD1001" ∧
    fetch_order sampleOrders "ORD2002" = some sampleOrder2 ∧
    (ingest c5State).order_id = none ∧
    (ingest c5State).email = none ∧
    (applyUpdate c5State (ingest c5State)).order_details = some sampleOrder1 ∧
    (applyUpdate c5State (ingest c5State)).issue_type = some "refund_request" ∧
    (applyUpdate c5State (ingest c5State)).draft_scenario = some DraftScenario.reply ∧
    (applyUpdate c5State (ingest c5State)).order_id = some "ORD1001" ∧
    (ingest c5State).route_path = some (some RoutePath.draft) := by
  decide

/-- **C5 amended** Once `order_details` is set, `ingest` skips identifier
extraction entirely — even when the ticket text contains a different valid
order id — and clears nothing: the update carries no `order_id`, `email`,
`order_details`, `candidate_orders`, `issue_type` or `draft_scenario` key, so
all of them (in particular the resolved `order_id`) persist unchanged, and
the turn routes to `DRAFT` (or `RECLASSIFY` when the issue is still
unknown). -/
theorem ingest_no_fresh_start (s : GraphState) (od : Order)
    (h : s.order_details = some od) :
    (ingest s).order_id = none ∧
    (ingest s).email = none ∧
    (ingest s).order_details = none ∧
    (ingest s).candidate_orders = none ∧
    (ingest s).issue_type = none ∧
    (ingest s).draft_scenario = none ∧
    (applyUpdate s (ingest s)).order_id = s.order_id ∧
    (applyUpdate s (ingest s)).order_details = some od ∧
    (applyUpdate s (ingest s)).candidate_orders = s.candidate_orders ∧
    (applyUpdate s (ingest s)).issue_type = s.issue_type ∧
    (applyUpdate s (ingest s)).draft_scenario = s.draft_scenario ∧
    ((ingest s).route_path = some (some RoutePath.draft) ∨
      (ingest s).route_path = some (some RoutePath.reclassify)) := by
  cases hni : (s.issue_type.isNone || s.issue_type == some "unknown") <;>
    simp [ingest, h, hni, applyUpdate]

/-- Witness for `ingest_no_fresh_start` at `c5State`. -/
theorem ingest_no_fresh_start_witness :
    (ingest c5State).order_id = none ∧
    (applyUpdate c5State (ingest c5State)).order_details = some sampleOrder1 ∧
    ((ingest c5State).route_path = some (some RoutePath.draft) ∨
      (ingest c5State).route_path = some (some RoutePath.reclassify)) := by
  have h := ingest_no_fresh_start c5State sampleOrder1 rfl
  exact ⟨h.1, h.2.2.2.2.2.2.2.1, h.2.2.2.2.2.2.2.2.2.2.2⟩

/-! ## Claim C4 — classification total order -/

/-- Arithmetic form of the `min` key comparison
`(priority, -len(keyword))`. -/
theorem keyLt_eq_true_iff (a b : MatchItem) :
    keyLt a b = true ↔
      (a.priority < b.priority ∨
        (a.priority = b.priority ∧ b.keyword.length < a.keyword.length)) := by
  simp [keyLt]

/-- No match strictly beats itself. -/
theorem keyLt_irrefl (a : MatchItem) : keyLt a a = false := by
  cases h : keyLt a a
  · rfl
  · exfalso
    have := (keyLt_eq_true_iff a a).mp h
    omega


/-- The key comparison is transitive. -/
theorem keyLt_trans {a b c : MatchItem} (h1 : keyLt a b = true)
    (h2 : keyLt b c = true) : keyLt a c = true := by
  rw [keyLt_eq_true_iff] at h1 h2 ⊢
  omega

/-- Strict-below composed with not-strict-below: if `a` beats `b` and `c`
does not beat `b`, then `a` beats `c`. -/
theorem keyLt_trans_not {a b c : MatchItem} (h1 : keyLt a b = true)
    (h2 : keyLt c b = false) : keyLt a c = true := by
  have h2' : ¬ (keyLt c b = true) := by simp [h2]
  rw [keyLt_eq_true_iff] at h1 ⊢
  rw [keyLt_eq_true_iff] at h2'
  omega

/-- Python `min` semantics of `pyMin`: the result is one of the matches and
no match strictly beats it. -/
theorem pyMin_spec (xs : List MatchItem) :
    ∀ x, pyMin x xs ∈ x :: xs ∧ ∀ z ∈ x :: xs, keyLt z (pyMin x xs) = false := by
  induction xs with
  | nil =>
    intro x
    refine ⟨by simp [pyMin], ?_⟩
    intro z hz
    rw [List.mem_singleton] at hz
    subst hz
    exact keyLt_irrefl z
  | cons y ys ih =>
    intro x
    have hstep : pyMin x (y :: ys) = pyMin (if keyLt y x then y else x) ys := rfl
    by_cases hk : keyLt y x = true
    · rw [hstep, if_pos hk]
      obtain ⟨hmem, hmin⟩ := ih y
      refine ⟨List.mem_cons_of_mem _ hmem, ?_⟩
      · intro z hz
        rcases List.mem_cons.mp hz with hzx | hz'
        · subst hzx
          cases hzb : keyLt z (pyMin y ys)
          · rfl
          · have hyb := hmin y (List.mem_cons_self _ _)
            have := keyLt_trans hk hzb
            rw [this] at hyb
            exact hyb
        · exact hmin z hz'
    · have hk' : keyLt y x = false := by
        cases h : keyLt y x
        · rfl
        · exact absurd h hk
      rw [hstep, if_neg hk]
      obtain ⟨hmem, hmin⟩ := ih x
      refine ⟨?_, ?_⟩
      · rcases List.mem_cons.mp hmem with h | h
        · rw [h]
          exact List.mem_cons_self _ _
        · exact List.mem_cons_of_mem _ (List.mem_cons_of_mem _ h)
      · intro z hz
        rcases List.mem_cons.mp hz with hzx | hz'
        · subst hzx
          exact hmin z (List.mem_cons_self _ _)
        · rcases List.mem_cons.mp hz' with hzy | hz''
          · subst hzy
            cases hzb : keyLt z (pyMin x ys)
            · rfl
            · have hxb := hmin x (List.mem_cons_self _ _)
              have := keyLt_trans_not hzb hxb
              rw [this] at hk'
              exact hk'
          · exact hmin z (List.mem_cons_of_mem _ hz'')

/-- The ticket used by the spec's tie-break example: it contains both
`"charge"` and `"duplicate charge"`. -/
def c4ChargeState : GraphState :=
  initState "There is a duplicate charge on my card" none

/-- **C4** `classify_issue` collects exactly the rules whose lower-cased
keyword occurs in the lower-cased ticket text; with no match the issue type
is `"unknown"`; with matches it is the issue type of the chosen match, which
has minimal priority and — among matches of that priority — maximal keyword
length; in particular, with the equal-priority keywords `"charge"` and
`"duplicate charge"` both present the `"duplicate charge"` rule wins. -/
theorem classify_total_order (env : Env) (s : GraphState) :
    (∀ rule ∈ env.issues,
      strContains (strLower s.ticket_text) (strLower rule.keyword) = true →
      (⟨strLower rule.keyword, rule.issue_type, rule.priority.getD 999⟩ : MatchItem)
        ∈ classify_matches env.issues (strLower s.ticket_text)) ∧
    (∀ mi ∈ classify_matches env.issues (strLower s.ticket_text),
      ∃ rule ∈ env.issues,
        strContains (strLower s.ticket_text) (strLower rule.keyword) = true ∧
        mi = ⟨strLower rule.keyword, rule.issue_type, rule.priority.getD 999⟩) ∧
    (classify_matches env.issues (strLower s.ticket_text) = [] →
      (classify_issue env s).issue_type = some (some "unknown")) ∧
    (∀ m ms, classify_matches env.issues (strLower s.ticket_text) = m :: ms →
      (classify_issue env s).issue_type = some (some (pyMin m ms).issue_type) ∧
      pyMin m ms ∈ m :: ms ∧
      ∀ x ∈ m :: ms, (pyMin m ms).priority ≤ x.priority ∧
        (x.priority = (pyMin m ms).priority →
          x.keyword.length ≤ (pyMin m ms).keyword.length)) ∧
    (classify_issue sampleEnv c4ChargeState).issue_type = some (some "duplicate_charge") := by
  refine ⟨?_, ?_, ?_, ?_, by decide⟩
  · intro rule hmem hsub
    simp only [classify_matches, List.mem_filterMap]
    exact ⟨rule, hmem, by simp [hsub]⟩
  · intro mi hmi
    simp only [classify_matches, List.mem_filterMap] at hmi
    obtain ⟨rule, hmem, heq⟩ := hmi
    refine ⟨rule, hmem, ?_⟩
    by_cases hsub : strContains (strLower s.ticket_text) (strLower rule.keyword) = true
    · rw [if_pos hsub] at heq
      exact ⟨hsub, (Option.some_inj.mp heq).symm⟩
    · simp [hsub] at heq
  · intro h
    simp [classify_issue, h]
  · intro m ms h
    obtain ⟨hmem, hmin⟩ := pyMin_spec ms m
    refine ⟨by simp [classify_issue, h], hmem, ?_⟩
    intro x hx
    have hfalse := hmin x hx
    have : ¬ (keyLt x (pyMin m ms) = true) := by simp [hfalse]
    rw [keyLt_eq_true_iff] at this
    omega

/-- Witness for `classify_total_order` at the concrete charge/duplicate
charge ticket over `sampleEnv`: the tie at priority 2 is broken toward the
longer keyword. -/
theorem classify_total_order_witness :
    (classify_issue sampleEnv c4ChargeState).issue_type = some (some "duplicate_charge") ∧
    classify_matches sampleEnv.issues (strLower c4ChargeState.ticket_text)
      = [⟨"charge", "billing_issue", 2⟩, ⟨"duplicate charge", "duplicate_charge", 2⟩] ∧
    (pyMin ⟨"charge", "billing_issue", 2⟩ [⟨"duplicate charge", "duplicate_charge", 2⟩]).issue_type
      = "duplicate_charge" := by
  have h := (classify_total_order sampleEnv c4ChargeState).2.2.2.1
    ⟨"charge", "billing_issue", 2⟩ [⟨"duplicate charge", "duplicate_charge", 2⟩] (by decide)
  exact ⟨(classify_total_order sampleEnv c4ChargeState).2.2.2.2, by decide, by decide⟩

/-! ## Claim C6 — when the action-preparation step runs -/

/-- A run of a whole turn, with a fallback result for the impossible error
case so concrete runs can be named (every named run below is `ok`). -/
def turnResult (env : Env) (s : GraphState) (t : String) : RunResult :=
  match startTurn env s t with
  | Except.ok r => r
  | Except.error _ => ⟨s, none, []⟩

/-- The concrete turn with no identifiers: classification matches
`"charge"`, resolution finds no identifier, the scenario becomes
`NEED_IDENTIFIER`. -/
def c6Run : RunResult :=
  turnResult sampleEnv (initState "My card was charged twice!!" none)
    "My card was charged twice!!"

/-- **C6 (code bug)** The claim — and `prepare_action`'s own docstring
("Only runs for REPLY scenario") — say the action-preparation step runs only
when the scenario is `REPLY`.  But `create_graph` wires
`resolve_order → prepare_action` as an unconditional edge, so on a turn with
no identifiers the scenario becomes `NEED_IDENTIFIER` in `resolve_order` and
`prepare_action` still executes (setting `suggested_action` and — until the
draft step clears it — `review_status = PENDING`). -/
theorem prepare_action_runs_for_non_reply :
    (∀ s : GraphState, successor Node.resolve_order s = some Node.prepare_action) ∧
    Node.prepare_action ∈ c6Run.trace ∧
    c6Run.state.draft_scenario = some DraftScenario.need_identifier ∧
    c6Run.state.suggested_action
      = some "Process billing_issue request for order N/A" ∧
    c6Run.pending = none := by
  refine ⟨fun s => rfl, ?_, ?_, ?_, ?_⟩ <;> decide

/-! ## Claim C8 — drafting failure handling -/

/-- A REPLY state awaiting its pending-phase draft (issue classified, order
resolved, review pending). -/
def c8State : GraphState :=
  { initState "I want a refund for ORD1001" none with
    draft_scenario := some DraftScenario.reply,
    issue_type := some "refund_request",
    order_id := some "ORD1001",
    order_details := some sampleOrder1,
    review_status := some ReviewStatus.pending }

/-- **C8 counterexample** The claim says a raising text-generation
collaborator is caught at the step boundary and the step degrades to a
generic fallback message instead of failing the turn.  With the raising
collaborator of `failGenEnv`, the draft step at `c8State` fails outright
(`draft_reply` has no `try/except`): it produces an error, not an update
carrying a fallback message, and the turn's run fails. -/
theorem draft_failure_claim_counterexample :
    draft_reply failGenEnv c8State = Except.error () ∧
    (∀ u : Update, draft_reply failGenEnv c8State ≠ Except.ok u) ∧
    runLoop failGenEnv defaultFuel c8State Node.draft_reply = Except.error () := by
  refine ⟨rfl, ?_, rfl⟩
  intro u h
  cases h

/-- **C8 amended** When the text-generation collaborator raises during
drafting, the exception escapes the step (the turn fails — there is no
fallback message), but the step commits nothing: the state at the step
boundary after the failed call equals the state before the call. -/
theorem draft_failure_atomic (env : Env) (s : GraphState)
    (hfail : ∀ sc ph st, env.gen sc ph st = Except.error ()) :
    runNode env Node.draft_reply s = Except.error () ∧
    applyStep env Node.draft_reply s = s ∧
    runLoop env defaultFuel s Node.draft_reply = Except.error () := by
  have hnode : runNode env Node.draft_reply s = Except.error () := by
    show draft_reply env s = Except.error ()
    unfold draft_reply
    simp only []
    split_ifs <;> rw [hfail] <;> rfl
  refine ⟨hnode, ?_, ?_⟩
  · show applyStep env Node.draft_reply s = s
    unfold applyStep
    rw [hnode]
  · show runLoop env (19 + 1) s Node.draft_reply = Except.error ()
    unfold runLoop
    rw [hnode]

/-- Witness for `draft_failure_atomic` at `c8State` over `failGenEnv`. -/
theorem draft_failure_atomic_witness :
    runNode failGenEnv Node.draft_reply c8State = Except.error () ∧
    applyStep failGenEnv Node.draft_reply c8State = c8State ∧
    runLoop failGenEnv defaultFuel c8State Node.draft_reply = Except.error () :=
  draft_failure_atomic failGenEnv c8State (fun _ _ _ => rfl)

/-! ## Executor unfolding lemmas -/

/-- One executor step, with the node's update given. -/
theorem runLoop_step (env : Env) (fuel : Nat) (s : GraphState) (n : Node) (u : Update)
    (hu : runNode env n s = Except.ok u) :
    runLoop env (fuel + 1) s n =
      match successor n (applyUpdate s u) with
      | none => Except.ok ⟨applyUpdate s u, none, [n]⟩
      | some m =>
        if interruptBefore m then Except.ok ⟨applyUpdate s u, some m, [n]⟩
        else
          match runLoop env fuel (applyUpdate s u) m with
          | Except.error e => Except.error e
          | Except.ok r => Except.ok ⟨r.state, r.pending, n :: r.trace⟩ := by
  rw [runLoop, hu]

/-- Executor step ending the run (the router returns END). -/
theorem runLoop_end (env : Env) (fuel : Nat) (s : GraphState) (n : Node) (u : Update)
    (hu : runNode env n s = Except.ok u)
    (hsucc : successor n (applyUpdate s u) = none) :
    runLoop env (fuel + 1) s n = Except.ok ⟨applyUpdate s u, none, [n]⟩ := by
  rw [runLoop_step env fuel s n u hu, hsucc]

/-- Executor step suspending before an interrupted successor. -/
theorem runLoop_interrupt (env : Env) (fuel : Nat) (s : GraphState) (n m : Node) (u : Update)
    (hu : runNode env n s = Except.ok u)
    (hsucc : successor n (applyUpdate s u) = some m)
    (hint : interruptBefore m = true) :
    runLoop env (fuel + 1) s n = Except.ok ⟨applyUpdate s u, some m, [n]⟩ := by
  rw [runLoop_step env fuel s n u hu, hsucc]
  simp [hint]

/-- Executor step continuing into the successor. -/
theorem runLoop_cont (env : Env) (fuel : Nat) (s : GraphState) (n m : Node) (u : Update)
    (r : RunResult)
    (hu : runNode env n s = Except.ok u)
    (hsucc : successor n (applyUpdate s u) = some m)
    (hint : interruptBefore m = false)
    (hrec : runLoop env fuel (applyUpdate s u) m = Except.ok r) :
    runLoop env (fuel + 1) s n = Except.ok ⟨r.state, r.pending, n :: r.trace⟩ := by
  rw [runLoop_step env fuel s n u hu, hsucc]
  simp [hint, hrec]

/-- `route_after_draft` only ever returns END, `finalize`, or
`admin_review`. -/
theorem route_after_draft_cases (s : GraphState) :
    route_after_draft s = none ∨ route_after_draft s = some Node.finalize ∨
      route_after_draft s = some Node.admin_review := by
  unfold route_after_draft
  split_ifs <;> simp

/-- With a non-raising generator, `draft_reply` always produces an update. -/
theorem draft_reply_ok (env : Env) (s : GraphState) (hg : GenTotal env) :
    ∃ u, draft_reply env s = Except.ok u := by
  unfold draft_reply
  simp only []
  split_ifs
  all_goals obtain ⟨d, hd⟩ := hg _ _ s
  all_goals rw [hd]
  all_goals exact ⟨_, rfl⟩

/-- With a non-raising generator, a run entered at the draft step terminates
or suspends after executing only the draft step and possibly `finalize` —
never classification, resolution, or action preparation. -/
theorem run_from_draft (env : Env) (hg : GenTotal env) (fuel : Nat) (s : GraphState) :
    ∃ r, runLoop env (fuel + 2) s Node.draft_reply = Except.ok r ∧
      (r.trace = [Node.draft_reply] ∨ r.trace = [Node.draft_reply, Node.finalize]) := by
  obtain ⟨u, hu⟩ := draft_reply_ok env s hg
  have hu' : runNode env Node.draft_reply s = Except.ok u := hu
  rcases route_after_draft_cases (applyUpdate s u) with h | h | h
  · exact ⟨⟨applyUpdate s u, none, [Node.draft_reply]⟩,
      runLoop_end env (fuel + 1) s Node.draft_reply u hu' h, Or.inl rfl⟩
  · have hfin : runLoop env (fuel + 1) (applyUpdate s u) Node.finalize
        = Except.ok ⟨applyUpdate (applyUpdate s u) (finalize (applyUpdate s u)), none,
            [Node.finalize]⟩ :=
      runLoop_end env fuel (applyUpdate s u) Node.finalize _ rfl rfl
    exact ⟨⟨_, none, [Node.draft_reply, Node.finalize]⟩,
      runLoop_cont env (fuel + 1) s Node.draft_reply Node.finalize u _ hu' h rfl hfin,
      Or.inr rfl⟩
  · exact ⟨⟨applyUpdate s u, some Node.admin_review, [Node.draft_reply]⟩,
      runLoop_interrupt env (fuel + 1) s Node.draft_reply Node.admin_review u hu' h rfl,
      Or.inl rfl⟩

/-! ## Claim C2 — ingest route precedence -/

/-- When both `issue_type` (meaningfully) and `order_details` are present,
the ingest update routes to `DRAFT` and carries no extracted identifiers. -/
theorem ingest_draft_fields (s : GraphState) (it : String) (od : Order)
    (hit : s.issue_type = some it) (hne : it ≠ "unknown")
    (hod : s.order_details = some od) :
    (ingest s).route_path = some (some RoutePath.draft) ∧
    (ingest s).order_id = none ∧ (ingest s).email = none := by
  have h1 : s.order_details.isNone = false := by rw [hod]; rfl
  have h2 : (s.issue_type.isNone || s.issue_type == some "unknown") = false := by
    rw [hit]
    simp [hne]
  simp [ingest, h1, h2]

/-- **C2** The ingest route precedence: `FULL` when the issue type is
unset/`"unknown"` and `order_details` is absent; `RESOLVE` when only
`order_details` is absent; `RECLASSIFY` when only the issue type is
unset/`"unknown"`; `DRAFT` when both are present — in which case the update
extracts no identifiers and the turn executes neither `classify_issue` nor
`resolve_order`. -/
theorem ingest_route_precedence (env : Env) (s : GraphState) :
    ((s.issue_type = none ∨ s.issue_type = some "unknown") → s.order_details = none →
      (ingest s).route_path = some (some RoutePath.full)) ∧
    (∀ it, s.issue_type = some it → it ≠ "unknown" → s.order_details = none →
      (ingest s).route_path = some (some RoutePath.resolve)) ∧
    (∀ od, (s.issue_type = none ∨ s.issue_type = some "unknown") →
      s.order_details = some od →
      (ingest s).route_path = some (some RoutePath.reclassify)) ∧
    (∀ it od, s.issue_type = some it → it ≠ "unknown" → s.order_details = some od →
      (ingest s).route_path = some (some RoutePath.draft) ∧
      (ingest s).order_id = none ∧ (ingest s).email = none ∧
      route_after_ingest (applyUpdate s (ingest s)) = Node.draft_reply ∧
      (GenTotal env → ∀ t, ∃ r, startTurn env s t = Except.ok r ∧
        Node.classify_issue ∉ r.trace ∧ Node.resolve_order ∉ r.trace ∧
        Node.prepare_action ∉ r.trace)) := by
  refine ⟨?_, ?_, ?_, ?_⟩
  · intro h hod
    have h1 : s.order_details.isNone = true := by rw [hod]; rfl
    have h2 : (s.issue_type.isNone || s.issue_type == some "unknown") = true := by
      rcases h with h | h <;> rw [h] <;> rfl
    cases hx : extract_order_id s.ticket_text <;>
      cases hy : extract_email s.ticket_text <;>
        simp [ingest, h1, h2, hx, hy]
  · intro it hit hne hod
    have h1 : s.order_details.isNone = true := by rw [hod]; rfl
    have h2 : (s.issue_type.isNone || s.issue_type == some "unknown") = false := by
      rw [hit]
      simp [hne]
    cases hx : extract_order_id s.ticket_text <;>
      cases hy : extract_email s.ticket_text <;>
        simp [ingest, h1, h2, hx, hy]
  · intro od h hod
    have h1 : s.order_details.isNone = false := by rw [hod]; rfl
    have h2 : (s.issue_type.isNone || s.issue_type == some "unknown") = true := by
      rcases h with h | h <;> rw [h] <;> rfl
    simp [ingest, h1, h2]
  · intro it od hit hne hod
    obtain ⟨hroute, hoid, hem⟩ := ingest_draft_fields s it od hit hne hod
    have hrai : route_after_ingest (applyUpdate s (ingest s)) = Node.draft_reply := by
      simp [route_after_ingest, applyUpdate, hroute]
    refine ⟨hroute, hoid, hem, hrai, ?_⟩
    intro hg t
    have hfields := ingest_draft_fields { s with ticket_text := t } it od hit hne hod
    obtain ⟨r, hr, htr⟩ := run_from_draft env hg 17
      (applyUpdate { s with ticket_text := t } (ingest { s with ticket_text := t }))
    have hr' : runLoop env 19
        (applyUpdate { s with ticket_text := t } (ingest { s with ticket_text := t }))
        Node.draft_reply = Except.ok r := hr
    have hsucc : successor Node.ingest
        (applyUpdate { s with ticket_text := t } (ingest { s with ticket_text := t }))
        = some Node.draft_reply := by
      simp [successor, route_after_ingest, applyUpdate, hfields.1]
    have hmain : runLoop env (19 + 1) { s with ticket_text := t } Node.ingest
        = Except.ok ⟨r.state, r.pending, Node.ingest :: r.trace⟩ :=
      runLoop_cont env 19 { s with ticket_text := t } Node.ingest Node.draft_reply
        (ingest { s with ticket_text := t }) r rfl hsucc rfl hr'
    refine ⟨⟨r.state, r.pending, Node.ingest :: r.trace⟩, hmain, ?_, ?_, ?_⟩ <;>
      rcases htr with h | h <;> simp [h]

/-- Witness for `ingest_route_precedence`: all four precedence branches at
concrete states, and a concrete `DRAFT`-route turn that never runs
classification or resolution. -/
theorem ingest_route_precedence_witness :
    (ingest (initState "hello" none)).route_path = some (some RoutePath.full) ∧
    (ingest { initState "t" none with
        issue_type := some "refund_request" }).route_path
      = some (some RoutePath.resolve) ∧
    (ingest { initState "t" none with
        order_details := some sampleOrder1 }).route_path
      = some (some RoutePath.reclassify) ∧
    (ingest c5State).route_path = some (some RoutePath.draft) ∧
    (∃ r, startTurn sampleEnv c5State "and another question" = Except.ok r ∧
      Node.classify_issue ∉ r.trace ∧ Node.resolve_order ∉ r.trace ∧
      Node.prepare_action ∉ r.trace) := by
  refine ⟨?_, ?_, ?_, ?_, ?_⟩
  · exact (ingest_route_precedence sampleEnv (initState "hello" none)).1
      (Or.inl rfl) rfl
  · exact (ingest_route_precedence sampleEnv _).2.1 "refund_request" rfl
      (by decide) rfl
  · exact (ingest_route_precedence sampleEnv _).2.2.1 sampleOrder1 (Or.inl rfl) rfl
  · exact ((ingest_route_precedence sampleEnv c5State).2.2.2 "refund_request"
      sampleOrder1 rfl (by decide) rfl).1
  · exact ((ingest_route_precedence sampleEnv c5State).2.2.2 "refund_request"
      sampleOrder1 rfl (by decide) rfl).2.2.2.2 sampleEnv_genTotal "and another question"

/-! ## Claim C1 — suspend/resume round trip -/

/-- The pending phase of `draft_reply`, as an equation. -/
theorem draft_reply_pending_eq (env : Env) (s : GraphState) (it d : String)
    (hsc : s.draft_scenario = some DraftScenario.reply)
    (hit : s.issue_type = some it) (hne : it ≠ "unknown")
    (hrev : s.review_status = some ReviewStatus.pending ∨ s.review_status = none)
    (hgen : env.gen DraftScenario.reply "pending" s = Except.ok d) :
    draft_reply env s = Except.ok (draft_pending_update d it s) := by
  rcases hrev with h | h <;>
    simp [draft_reply, hsc, hit, hne, h, hgen, Except.map]

/-- The approved phase of `draft_reply`, as an equation. -/
theorem draft_reply_approved_eq (env : Env) (s : GraphState) (it d : String)
    (hsc : s.draft_scenario = some DraftScenario.reply)
    (hit : s.issue_type = some it) (hne : it ≠ "unknown")
    (hrev : s.review_status = some ReviewStatus.approved)
    (hgen : env.gen DraftScenario.reply "approved" s = Except.ok d) :
    draft_reply env s = Except.ok (draft_approved_update d it s) := by
  simp [draft_reply, hsc, hit, hne, hrev, hgen, Except.map]

/-- The rejected phase of `draft_reply`, as an equation. -/
theorem draft_reply_rejected_eq (env : Env) (s : GraphState) (it d : String)
    (hsc : s.draft_scenario = some DraftScenario.reply)
    (hit : s.issue_type = some it) (hne : it ≠ "unknown")
    (hrev : s.review_status = some ReviewStatus.rejected)
    (hgen : env.gen DraftScenario.reply "rejected" s = Except.ok d) :
    draft_reply env s = Except.ok (draft_rejected_update d it s) := by
  simp [draft_reply, hsc, hit, hne, hrev, hgen, Except.map]

/-- The resumed half of the round trip: from the admin checkpoint with an
injected APPROVED/REJECTED decision, the run executes the pass-through, the
draft step in the decision's phase, and `finalize`, ends terminally, and
appends exactly two messages (the decision message and the final marker). -/
theorem resume_after_decision (env : Env) (s1 : GraphState) (it : String) (fuel : Nat)
    (hg : GenTotal env)
    (hsc : s1.draft_scenario = some DraftScenario.reply)
    (hit : s1.issue_type = some it) (hne : it ≠ "unknown")
    (dec : ReviewStatus)
    (hdec : dec = ReviewStatus.approved ∨ dec = ReviewStatus.rejected)
    (fb : Option String) :
    ∃ s2, runLoop env (fuel + 3)
        { s1 with review_status := some dec, admin_feedback := fb } Node.admin_review
      = Except.ok ⟨s2, none, [Node.admin_review, Node.draft_reply, Node.finalize]⟩ ∧
      s2.review_status = some dec ∧
      s2.messages.length = s1.messages.length + 2 := by
  set s1' : GraphState := { s1 with review_status := some dec, admin_feedback := fb } with hs1'
  set s2a : GraphState := applyUpdate s1' (admin_review s1') with hs2a
  have hsc2 : s2a.draft_scenario = some DraftScenario.reply := hsc
  have hit2 : s2a.issue_type = some it := hit
  have hrev2 : s2a.review_status = some dec := rfl
  have hphase : String := "approved"
  obtain ⟨d, hd⟩ := hg DraftScenario.reply
    (match dec with
      | ReviewStatus.approved => "approved"
      | ReviewStatus.pending => "pending"
      | ReviewStatus.rejected => "rejected") s2a
  have hdraft : ∃ du : Update,
      draft_reply env s2a = Except.ok du ∧
      du.messages.length = 1 ∧ du.review_status = some (some dec) ∧
      du.draft_scenario = none := by
    rcases hdec with h | h
    · subst h
      exact ⟨draft_approved_update d it s2a,
        draft_reply_approved_eq env s2a it d hsc2 hit2 hne hrev2 hd, rfl, rfl, rfl⟩
    · subst h
      exact ⟨draft_rejected_update d it s2a,
        draft_reply_rejected_eq env s2a it d hsc2 hit2 hne hrev2 hd, rfl, rfl, rfl⟩
  obtain ⟨du, hdu, hlen, hrevu, hscu⟩ := hdraft
  set s2b : GraphState := applyUpdate s2a du with hs2b
  have hscb : s2b.draft_scenario = some DraftScenario.reply := by
    simp [hs2b, applyUpdate, hscu, hsc2]
  have hrevb : s2b.review_status = some dec := by
    simp [hs2b, applyUpdate, hrevu]
  have hsuccd : successor Node.draft_reply s2b = some Node.finalize := by
    rcases hdec with h | h <;> subst h <;>
      simp [successor, route_after_draft, hscb, hrevb]
  set s2c : GraphState := applyUpdate s2b (finalize s2b) with hs2c
  have hfin : runLoop env (fuel + 1) s2b Node.finalize
      = Except.ok ⟨s2c, none, [Node.finalize]⟩ :=
    runLoop_end env fuel s2b Node.finalize _ rfl rfl
  have hdrun : runLoop env (fuel + 2) s2a Node.draft_reply
      = Except.ok ⟨s2c, none, [Node.draft_reply, Node.finalize]⟩ :=
    runLoop_cont env (fuel + 1) s2a Node.draft_reply Node.finalize du
      ⟨s2c, none, [Node.finalize]⟩ hdu hsuccd rfl hfin
  have harun : runLoop env (fuel + 3) s1' Node.admin_review
      = Except.ok ⟨s2c, none, [Node.admin_review, Node.draft_reply, Node.finalize]⟩ :=
    runLoop_cont env (fuel + 2) s1' Node.admin_review Node.draft_reply
      (admin_review s1') ⟨s2c, none, [Node.draft_reply, Node.finalize]⟩ rfl rfl rfl hdrun
  refine ⟨s2c, harun, ?_, ?_⟩
  · simp [hs2c, applyUpdate, finalize, hrevb]
  · have h1 : s2c.messages.length = s2b.messages.length + 1 := by
      simp [hs2c, applyUpdate, finalize]
    have h2 : s2b.messages.length = s2a.messages.length + du.messages.length := by
      simp [hs2b, applyUpdate]
    have h3 : s2a.messages.length = s1.messages.length := by
      simp [hs2a, applyUpdate, admin_review, hs1']
    omega

/-- **C1 amended** For a REPLY-scenario turn with a meaningful issue type and
a PENDING (or unset) review status, the pending-phase draft step suspends the
run before the admin checkpoint with `review_status = PENDING`; injecting an
APPROVED or REJECTED decision resumes through the pass-through, the draft
step in the matching phase, and `finalize`, ending terminally — and the
transcript gains exactly two messages (the decision message and the final
marker), not one. -/
theorem suspend_resume_round_trip (env : Env) (s : GraphState) (it : String) (fuel : Nat)
    (hg : GenTotal env)
    (hsc : s.draft_scenario = some DraftScenario.reply)
    (hit : s.issue_type = some it) (hne : it ≠ "unknown")
    (hrev : s.review_status = some ReviewStatus.pending ∨ s.review_status = none) :
    ∃ s1, runLoop env (fuel + 1) s Node.draft_reply
        = Except.ok ⟨s1, some Node.admin_review, [Node.draft_reply]⟩ ∧
      s1.review_status = some ReviewStatus.pending ∧
      s1.messages.length = s.messages.length + 1 ∧
      s1.draft_scenario = some DraftScenario.reply ∧
      s1.issue_type = some it ∧
      (∀ dec, dec = ReviewStatus.approved ∨ dec = ReviewStatus.rejected → ∀ fb,
        ∃ s2, runLoop env (fuel + 3)
            { s1 with review_status := some dec, admin_feedback := fb } Node.admin_review
          = Except.ok ⟨s2, none, [Node.admin_review, Node.draft_reply, Node.finalize]⟩ ∧
          s2.review_status = some dec ∧
          s2.messages.length = s1.messages.length + 2) := by
  obtain ⟨d, hd⟩ := hg DraftScenario.reply "pending" s
  have hdr : draft_reply env s = Except.ok (draft_pending_update d it s) :=
    draft_reply_pending_eq env s it d hsc hit hne hrev hd
  set s1 : GraphState := applyUpdate s (draft_pending_update d it s) with hs1
  have hrev1 : s1.review_status = some ReviewStatus.pending := by
    simp [hs1, applyUpdate, draft_pending_update]
  have hsc1 : s1.draft_scenario = some DraftScenario.reply := by
    simp [hs1, applyUpdate, draft_pending_update, hsc]
  have hit1 : s1.issue_type = some it := by
    simp [hs1, applyUpdate, draft_pending_update, hit]
  have hsuspend : runLoop env (fuel + 1) s Node.draft_reply
      = Except.ok ⟨s1, some Node.admin_review, [Node.draft_reply]⟩ := by
    refine runLoop_interrupt env fuel s Node.draft_reply Node.admin_review
      (draft_pending_update d it s) hdr ?_ rfl
    rw [← hs1]
    simp [successor, route_after_draft, hsc1, hrev1]
  refine ⟨s1, hsuspend, hrev1, ?_, hsc1, hit1, ?_⟩
  · simp [hs1, applyUpdate, draft_pending_update]
  · intro dec hdec fb
    exact resume_after_decision env s1 it fuel hg hsc1 hit1 hne dec hdec fb

/-- The concrete first turn of the round trip: a refund ticket with a valid
order id, run to the suspension point. -/
def c1Suspend : RunResult :=
  turnResult sampleEnv (initState "I want a refund for ORD1001" none)
    "I want a refund for ORD1001"

/-- The concrete resumed run after injecting an APPROVED decision. -/
def c1Resume : RunResult :=
  match submitReview sampleEnv c1Suspend.state Node.admin_review
      ReviewStatus.approved none with
  | Except.ok r => r
  | Except.error _ => ⟨c1Suspend.state, none, []⟩

/-- **C1 counterexample** The claim says the transcript after the resumed
run contains exactly one more message than at the moment of suspension.  On
the concrete round trip the suspension and terminal-resume behaviour all
hold, but the resumed run appends two messages — the approved message from
the draft step and the `[FINAL]` marker from `finalize` — taking the
transcript from 2 to 4 messages, not 3. -/
theorem suspend_resume_claim_counterexample :
    c1Suspend.pending = some Node.admin_review ∧
    c1Suspend.state.review_status = some ReviewStatus.pending ∧
    c1Suspend.state.draft_scenario = some DraftScenario.reply ∧
    c1Resume.pending = none ∧
    c1Resume.trace = [Node.admin_review, Node.draft_reply, Node.finalize] ∧
    c1Resume.state.review_status = some ReviewStatus.approved ∧
    c1Suspend.state.messages.length = 2 ∧
    c1Resume.state.messages.length = 4 ∧
    c1Resume.state.messages.length ≠ c1Suspend.state.messages.length + 1 := by
  refine ⟨?_, ?_, ?_, ?_, ?_, ?_, ?_, ?_, ?_⟩ <;> decide

/-- Witness for `suspend_resume_round_trip` at the concrete state `c8State`
(REPLY scenario, issue `refund_request`, review pending) over `sampleEnv`. -/
theorem suspend_resume_round_trip_witness :
    ∃ s1, runLoop sampleEnv (16 + 1) c8State Node.draft_reply
        = Except.ok ⟨s1, some Node.admin_review, [Node.draft_reply]⟩ ∧
      s1.review_status = some ReviewStatus.pending ∧
      s1.messages.length = c8State.messages.length + 1 ∧
      s1.draft_scenario = some DraftScenario.reply ∧
      s1.issue_type = some "refund_request" ∧
      (∀ dec, dec = ReviewStatus.approved ∨ dec = ReviewStatus.rejected → ∀ fb,
        ∃ s2, runLoop sampleEnv (16 + 3)
            { s1 with review_status := some dec, admin_feedback := fb } Node.admin_review
          = Except.ok ⟨s2, none, [Node.admin_review, Node.draft_reply, Node.finalize]⟩ ∧
          s2.review_status = some dec ∧
          s2.messages.length = s1.messages.length + 2) :=
  suspend_resume_round_trip sampleEnv c8State "refund_request" 16
    sampleEnv_genTotal rfl rfl (by decide) (Or.inl rfl)

/-! ## Claim C7 — identifier extraction

Specification predicates describing occurrences of the two regex patterns,
and soundness/completeness of the embedded scanners against them. -/

/-- The character before a match position, if any, is not a word character
(`\b` holds there). -/
def optNotWord : Option Char → Prop
  | none => True
  | some c => isWordChar c = false

/-- The character preceding position `|pre|` when `pre` is preceded by
`prev`: the last character of `pre`, else `prev`. -/
def prevChar (prev : Option Char) : List Char → Option Char
  | [] => prev
  | c :: pre => prevChar (some c) pre

/-- The first character of `l`, if any, is not a word character. -/
def headNotWord : List Char → Prop
  | [] => True
  | c :: _ => isWordChar c = false

/-- `w` is an occurrence of `ORD\d+` (IGNORECASE), digits maximal. -/
def IsOrdToken (w : List Char) : Prop :=
  ∃ c1 c2 c3 ds, w = c1 :: c2 :: c3 :: ds ∧
    c1.toLower = 'o' ∧ c2.toLower = 'r' ∧ c3.toLower = 'd' ∧
    ds ≠ [] ∧ ∀ c ∈ ds, c.isDigit = true

/-- `cs`, preceded by `prev`, contains a `\b(ORD\d+)\b` occurrence. -/
def HasOrdFrom (prev : Option Char) (cs : List Char) : Prop :=
  ∃ pre w post, cs = pre ++ w ++ post ∧ IsOrdToken w ∧
    optNotWord (prevChar prev pre) ∧ headNotWord post

/-- The ticket text contains a `\b(ORD\d+)\b` occurrence. -/
def HasOrdPattern (t : String) : Prop :=
  HasOrdFrom none t.toList

/-- A digit is a word character. -/
theorem isWordChar_of_isDigit {c : Char} (h : c.isDigit = true) :
    isWordChar c = true := by
  simp [isWordChar, Char.isAlphanum, h]

/-- `takeWhile`/`dropWhile` pass through a block that satisfies the
predicate. -/
theorem takeWhile_append_all (p : Char → Bool) (xs ys : List Char)
    (h : ∀ c ∈ xs, p c = true) :
    (xs ++ ys).takeWhile p = xs ++ ys.takeWhile p ∧
      (xs ++ ys).dropWhile p = ys.dropWhile p := by
  induction xs with
  | nil => simp
  | cons x xs ih =>
    have hx := h x (List.mem_cons_self _ _)
    have ih' := ih (fun c hc => h c (List.mem_cons_of_mem _ hc))
    simp [List.takeWhile_cons, List.dropWhile_cons, hx, ih'.1, ih'.2]

/-- The head of `dropWhile p l` fails `p`. -/
theorem dropWhile_head_false (p : Char → Bool) (l : List Char) (c : Char)
    (cs : List Char) (h : l.dropWhile p = c :: cs) : p c = false := by
  induction l with
  | nil => cases h
  | cons x xs ih =>
    by_cases hx : p x = true
    · rw [List.dropWhile_cons, if_pos hx] at h
      exact ih h
    · have hx' : p x = false := by
        cases hpx : p x
        · rfl
        · exact absurd hpx hx
      rw [List.dropWhile_cons, if_neg hx] at h
      cases h
      exact hx'

/-- `boundaryAfter` decides `headNotWord`. -/
theorem boundaryAfter_iff (l : List Char) :
    boundaryAfter l = true ↔ headNotWord l := by
  cases l <;> simp [boundaryAfter, headNotWord]

/-- `boundaryBefore` decides `optNotWord`. -/
theorem boundaryBefore_iff (oc : Option Char) :
    boundaryBefore oc = true ↔ optNotWord oc := by
  cases oc <;> simp [boundaryBefore, optNotWord]

/-- The previous character of a position inside `c :: pre` is that of the
same position inside `pre` preceded by `c`. -/
theorem prevChar_cons (prev : Option Char) (c : Char) (pre : List Char) :
    prevChar prev (c :: pre) = prevChar (some c) pre := rfl

/-- Soundness of the head matcher: a match is an `ORD\d+` token occurrence
at the head whose digits end at a word boundary. -/
theorem ordMatchHere_sound (cs w : List Char) (h : ordMatchHere cs = some w) :
    ∃ post, cs = w ++ post ∧ IsOrdToken w ∧ headNotWord post := by
  match cs with
  | [] => cases h
  | [c1] => cases h
  | [c1, c2] => cases h
  | c1 :: c2 :: c3 :: rest =>
    simp only [ordMatchHere] at h
    split_ifs at h with h1 h2
    · have h1' := h1
      simp only [Bool.and_eq_true, decide_eq_true_eq] at h1'
      obtain ⟨⟨ho, hr⟩, hd⟩ :
          (c1.toLower = 'o' ∧ c2.toLower = 'r') ∧ c3.toLower = 'd' := by
        tauto
      obtain ⟨hne, hba⟩ : ¬ (rest.takeWhile Char.isDigit).isEmpty = true ∧
          boundaryAfter (rest.dropWhile Char.isDigit) = true := by
        simpa using h2
      have hw : w = c1 :: c2 :: c3 :: rest.takeWhile Char.isDigit :=
        (Option.some_inj.mp h).symm
      refine ⟨rest.dropWhile Char.isDigit, ?_, ?_, ?_⟩
      · rw [hw]
        simp [List.takeWhile_append_dropWhile]
      · refine ⟨c1, c2, c3, rest.takeWhile Char.isDigit, hw, ho, hr, hd, ?_, ?_⟩
        · intro hcon
          rw [hcon] at hne
          exact hne rfl
        · intro c hc
          exact List.mem_takeWhile_imp hc
      · exact (boundaryAfter_iff _).mp hba

/-- Completeness of the head matcher: an `ORD\d+` token at the head whose
digits end at a word boundary is matched. -/
theorem ordMatchHere_complete (w post : List Char) (hw : IsOrdToken w)
    (hpost : headNotWord post) : ordMatchHere (w ++ post) = some w := by
  obtain ⟨c1, c2, c3, ds, rfl, h1, h2, h3, hne, hds⟩ := hw
  have htake : (ds ++ post).takeWhile Char.isDigit = ds ∧
      (ds ++ post).dropWhile Char.isDigit = post := by
    obtain ⟨ht, hd⟩ := takeWhile_append_all Char.isDigit ds post hds
    cases post with
    | nil =>
      refine ⟨?_, ?_⟩
      · simpa using ht
      · simpa using hd
    | cons c cs' =>
      have hcd : Char.isDigit c = false := by
        cases hdig : c.isDigit
        · rfl
        · have hw := isWordChar_of_isDigit hdig
          have : isWordChar c = false := hpost
          rw [this] at hw
          cases hw
      rw [ht, hd]
      simp [List.takeWhile_cons, List.dropWhile_cons, hcd]
  have hisEmpty : ds.isEmpty = false := by
    cases ds with
    | nil => exact absurd rfl hne
    | cons d ds' => rfl
  have hcs : (c1 :: c2 :: c3 :: ds) ++ post = c1 :: c2 :: c3 :: (ds ++ post) := by
    simp
  rw [hcs]
  simp [ordMatchHere, h1, h2, h3, htake.1, htake.2, hisEmpty,
    (boundaryAfter_iff post).mpr hpost]

/-- Soundness of the scan: a successful scan returns an `ORD\d+` occurrence
with word boundaries on both sides. -/
theorem scanOrd_sound (cs : List Char) : ∀ (prev : Option Char) (w : List Char),
    scanOrd prev cs = some w →
    ∃ pre post, cs = pre ++ w ++ post ∧ IsOrdToken w ∧
      optNotWord (prevChar prev pre) ∧ headNotWord post := by
  induction cs with
  | nil => intro prev w h; cases h
  | cons c rest ih =>
    intro prev w h
    simp only [scanOrd] at h
    cases hbr : (if boundaryBefore prev then ordMatchHere (c :: rest) else none) with
    | some m =>
      rw [hbr] at h
      cases h
      by_cases hb : boundaryBefore prev = true
      · rw [if_pos hb] at hbr
        obtain ⟨post, heq, htok, hpost⟩ := ordMatchHere_sound (c :: rest) w hbr
        exact ⟨[], post, by simpa using heq, htok,
          by simpa [prevChar] using (boundaryBefore_iff prev).mp hb, hpost⟩
      · rw [if_neg hb] at hbr
        cases hbr
    | none =>
      rw [hbr] at h
      obtain ⟨pre, post, heq, htok, hprev, hpost⟩ := ih (some c) w h
      exact ⟨c :: pre, post, by simp [heq], htok,
        by rwa [prevChar_cons], hpost⟩

/-- Completeness of the scan: any bounded `ORD\d+` occurrence makes the scan
succeed. -/
theorem scanOrd_isSome (cs : List Char) : ∀ (prev : Option Char),
    HasOrdFrom prev cs → (scanOrd prev cs).isSome = true := by
  induction cs with
  | nil =>
    intro prev h
    obtain ⟨pre, w, post, heq, htok, -, -⟩ := h
    obtain ⟨c1, c2, c3, ds, rfl, -⟩ := htok
    simp at heq
  | cons c rest ih =>
    intro prev h
    obtain ⟨pre, w, post, heq, htok, hprev, hpost⟩ := h
    simp only [scanOrd]
    cases hbr : (if boundaryBefore prev then ordMatchHere (c :: rest) else none) with
    | some m => rfl
    | none =>
      cases pre with
      | nil =>
        exfalso
        have hb : boundaryBefore prev = true := by
          rw [boundaryBefore_iff]
          simpa [prevChar] using hprev
        rw [if_pos hb] at hbr
        have : ordMatchHere (c :: rest) = some w := by
          have heq' : c :: rest = w ++ post := by simpa using heq
          rw [heq']
          exact ordMatchHere_complete w post htok hpost
        rw [this] at hbr
        cases hbr
      | cons c' pre' =>
        simp only [List.cons_append] at heq
        injection heq with hc hrest
        subst hc
        exact ih (some c) ⟨pre', w, post, hrest, htok,
          by rwa [prevChar_cons] at hprev, hpost⟩

/-- `w` is an occurrence of `[\w.-]+@[\w.-]+\.\w+`: a non-empty local part,
`@`, a non-empty domain part, a dot, and a non-empty word-character run. -/
def IsEmailToken (w : List Char) : Prop :=
  ∃ a b ww, w = a ++ '@' :: (b ++ '.' :: ww) ∧
    a ≠ [] ∧ b ≠ [] ∧ ww ≠ [] ∧
    (∀ c ∈ a, isEmailChar c = true) ∧ (∀ c ∈ b, isEmailChar c = true) ∧
    (∀ c ∈ ww, isWordChar c = true)

/-- The ticket text contains an email-pattern occurrence. -/
def HasEmailPattern (t : String) : Prop :=
  ∃ pre w post, t.toList = pre ++ w ++ post ∧ IsEmailToken w

/-- A word character is an email character. -/
theorem isEmailChar_of_isWordChar {c : Char} (h : isWordChar c = true) :
    isEmailChar c = true := by
  simp [isEmailChar, h]

/-- Soundness of `lastDotSplit`: it splits off a dot of the run followed by
its maximal non-empty word run. -/
theorem lastDotSplit_sound (l : List Char) : ∀ b w,
    lastDotSplit l = some (b, w) →
    ∃ rest3, l = b ++ '.' :: (w ++ rest3) ∧ w ≠ [] ∧
      ∀ c ∈ w, isWordChar c = true := by
  induction l with
  | nil => intro b w h; cases h
  | cons c rest ih =>
    intro b w h
    simp only [lastDotSplit] at h
    cases hrec : lastDotSplit rest with
    | some bw =>
      obtain ⟨bR, wR⟩ := bw
      rw [hrec] at h
      simp only [Option.some_inj, Prod.mk.injEq] at h
      obtain ⟨hb, hw⟩ := h
      obtain ⟨rest3, heq, hne, hmem⟩ := ih bR wR hrec
      subst hb
      subst hw
      exact ⟨rest3, by rw [heq]; simp, hne, hmem⟩
    | none =>
      rw [hrec] at h
      split_ifs at h with hdot hweN
      have hweN' := hweN
      simp only [Option.some_inj, Prod.mk.injEq] at h
      obtain ⟨hb, hw⟩ := h
      subst hdot
      refine ⟨rest.dropWhile isWordChar, ?_, ?_, ?_⟩
      · rw [← hb, ← hw]
        simp [List.takeWhile_append_dropWhile]
      · intro hcon
        rw [hw, hcon] at hweN'
        exact hweN' rfl
      · intro x hx
        rw [← hw] at hx
        exact List.mem_takeWhile_imp hx

/-- Completeness of `lastDotSplit`: when the run contains a dot followed by
a word character, the split succeeds. -/
theorem lastDotSplit_isSome (l : List Char) : ∀ b0 c0 r0,
    l = b0 ++ '.' :: c0 :: r0 → isWordChar c0 = true →
    (lastDotSplit l).isSome = true := by
  induction l with
  | nil =>
    intro b0 c0 r0 heq _
    simp at heq
  | cons c rest ih =>
    intro b0 c0 r0 heq hc0
    simp only [lastDotSplit]
    cases hrec : lastDotSplit rest with
    | some bw => rfl
    | none =>
      cases b0 with
      | nil =>
        simp only [List.nil_append] at heq
        injection heq with hc hrest
        subst hc
        have htw : rest.takeWhile isWordChar = c0 :: (r0.takeWhile isWordChar) := by
          rw [hrest]
          simp [List.takeWhile_cons, hc0]
        simp [htw]
      | cons cb b0' =>
        exfalso
        simp only [List.cons_append] at heq
        injection heq with hc hrest
        have := ih b0' c0 r0 hrest hc0
        rw [hrec] at this
        cases this

/-- The split of `lastDotSplit` is at the last valid dot: its prefix is at
least as long as the prefix of any valid dot. -/
theorem lastDotSplit_ge (l : List Char) : ∀ b0 c0 r0 b w,
    l = b0 ++ '.' :: c0 :: r0 → isWordChar c0 = true →
    lastDotSplit l = some (b, w) → b0.length ≤ b.length := by
  induction l with
  | nil =>
    intro b0 c0 r0 b w heq _ _
    simp at heq
  | cons c rest ih =>
    intro b0 c0 r0 b w heq hc0 h
    cases b0 with
    | nil => simp
    | cons cb b0' =>
      simp only [List.cons_append] at heq
      injection heq with hc hrest
      simp only [lastDotSplit] at h
      cases hrec : lastDotSplit rest with
      | some bw =>
        obtain ⟨bR, wR⟩ := bw
        rw [hrec] at h
        simp only [Option.some_inj, Prod.mk.injEq] at h
        obtain ⟨hb, -⟩ := h
        have := ih b0' c0 r0 bR wR hrest hc0 hrec
        rw [← hb]
        simpa using this
      | none =>
        exfalso
        have := lastDotSplit_isSome rest b0' c0 r0 hrest hc0
        rw [hrec] at this
        cases this

/-- Soundness of the email head matcher: a match is an email-token
occurrence at the head. -/
theorem emailMatchHere_sound (cs w : List Char) (h : emailMatchHere cs = some w) :
    ∃ post, cs = w ++ post ∧ IsEmailToken w := by
  simp only [emailMatchHere] at h
  by_cases hr1 : (cs.takeWhile isEmailChar).isEmpty = true
  · rw [if_pos hr1] at h
    cases h
  · rw [if_neg hr1] at h
    cases hdrop : cs.dropWhile isEmailChar with
    | nil =>
      rw [hdrop] at h
      cases h
    | cons c rest2 =>
      rw [hdrop] at h
      dsimp only at h
      by_cases hc : c = '@'
      · rw [if_pos hc] at h
        cases hld : lastDotSplit (rest2.takeWhile isEmailChar) with
        | none =>
          rw [hld] at h
          cases h
        | some bw =>
          obtain ⟨b, wrd⟩ := bw
          rw [hld] at h
          dsimp only at h
          by_cases hbe : b.isEmpty = true
          · rw [if_pos hbe] at h
            cases h
          · rw [if_neg hbe] at h
            have hw : w = cs.takeWhile isEmailChar ++ '@' :: b ++ '.' :: wrd :=
              (Option.some_inj.mp h).symm
            obtain ⟨rest3, hrun2, hwne, hwmem⟩ :=
              lastDotSplit_sound (rest2.takeWhile isEmailChar) b wrd hld
            have hrest2 : rest2 = (b ++ '.' :: (wrd ++ rest3)) ++ rest2.dropWhile isEmailChar := by
              conv_lhs => rw [← List.takeWhile_append_dropWhile (p := isEmailChar) (l := rest2)]
              rw [hrun2]
            refine ⟨rest3 ++ rest2.dropWhile isEmailChar, ?_, ?_⟩
            · subst hc
              conv_lhs => rw [← List.takeWhile_append_dropWhile (p := isEmailChar) (l := cs)]
              rw [hdrop, hw]
              conv_lhs => rw [hrest2]
              simp [List.append_assoc]
            · refine ⟨cs.takeWhile isEmailChar, b, wrd, ?_, ?_, ?_, hwne, ?_, ?_, hwmem⟩
              · rw [hw]
                simp [List.append_assoc]
              · intro hcon
                rw [hcon] at hr1
                exact hr1 rfl
              · intro hcon
                rw [hcon] at hbe
                exact hbe rfl
              · intro x hx
                exact List.mem_takeWhile_imp hx
              · intro x hx
                have : x ∈ rest2.takeWhile isEmailChar := by
                  rw [hrun2]
                  exact List.mem_append.mpr (Or.inl hx)
                exact List.mem_takeWhile_imp this
      · rw [if_neg hc] at h
        cases h

/-- Completeness of the email head matcher: an email token at the head is
matched. -/
theorem emailMatchHere_isSome (a b ww post : List Char)
    (ha : a ≠ []) (hb : b ≠ []) (hww : ww ≠ [])
    (hae : ∀ c ∈ a, isEmailChar c = true) (hbe : ∀ c ∈ b, isEmailChar c = true)
    (hwe : ∀ c ∈ ww, isWordChar c = true) :
    (emailMatchHere ((a ++ '@' :: (b ++ '.' :: ww)) ++ post)).isSome = true := by
  have hat : isEmailChar '@' = false := by decide
  have hcs : (a ++ '@' :: (b ++ '.' :: ww)) ++ post
      = a ++ ('@' :: ((b ++ '.' :: ww) ++ post)) := by
    simp [List.append_assoc]
  obtain ⟨ht0, hd0⟩ := takeWhile_append_all isEmailChar a
    ('@' :: ((b ++ '.' :: ww) ++ post)) hae
  have htke : ((a ++ '@' :: (b ++ '.' :: ww)) ++ post).takeWhile isEmailChar = a := by
    rw [hcs, ht0]
    simp [List.takeWhile_cons, hat]
  have hdrp : ((a ++ '@' :: (b ++ '.' :: ww)) ++ post).dropWhile isEmailChar
      = '@' :: ((b ++ '.' :: ww) ++ post) := by
    rw [hcs, hd0]
    simp [List.dropWhile_cons, hat]
  have hrun2 : ((b ++ '.' :: ww) ++ post).takeWhile isEmailChar
      = (b ++ '.' :: ww) ++ post.takeWhile isEmailChar := by
    refine (takeWhile_append_all isEmailChar (b ++ '.' :: ww) post ?_).1
    intro c hc
    rcases List.mem_append.mp hc with h | h
    · exact hbe c h
    · rcases List.mem_cons.mp h with rfl | h2
      · decide
      · exact isEmailChar_of_isWordChar (hwe c h2)
  obtain ⟨c0, ww', hww2⟩ : ∃ c0 ww', ww = c0 :: ww' := by
    cases ww with
    | nil => exact absurd rfl hww
    | cons c0 ww' => exact ⟨c0, ww', rfl⟩
  have hc0w : isWordChar c0 = true := by
    refine hwe c0 ?_
    rw [hww2]
    exact List.mem_cons_self _ _
  have hshape : ((b ++ '.' :: ww) ++ post).takeWhile isEmailChar
      = b ++ '.' :: c0 :: (ww' ++ post.takeWhile isEmailChar) := by
    rw [hrun2, hww2]
    simp [List.append_assoc]
  have hsome := lastDotSplit_isSome _ b c0 (ww' ++ post.takeWhile isEmailChar)
    hshape hc0w
  obtain ⟨bw, hld⟩ := Option.isSome_iff_exists.mp hsome
  obtain ⟨bS, wS⟩ := bw
  have hge := lastDotSplit_ge _ b c0 (ww' ++ post.takeWhile isEmailChar) bS wS
    hshape hc0w hld
  have hbSe : bS.isEmpty = false := by
    cases bS with
    | nil =>
      exfalso
      cases b with
      | nil => exact hb rfl
      | cons x xs => simp at hge
    | cons x xs => rfl
  have haE : a.isEmpty = false := by
    cases a with
    | nil => exact absurd rfl ha
    | cons x xs => rfl
  simp only [emailMatchHere, htke, hdrp, haE, hld, hbSe]
  simp

/-- Soundness of the email scan: a successful scan returns an email-token
occurrence. -/
theorem emailScan_sound (cs : List Char) : ∀ w, emailScan cs = some w →
    ∃ pre post, cs = pre ++ w ++ post ∧ IsEmailToken w := by
  induction cs with
  | nil => intro w h; cases h
  | cons c rest ih =>
    intro w h
    simp only [emailScan] at h
    cases hm : emailMatchHere (c :: rest) with
    | some m =>
      rw [hm] at h
      cases h
      obtain ⟨post, heq, htok⟩ := emailMatchHere_sound (c :: rest) w hm
      exact ⟨[], post, by simpa using heq, htok⟩
    | none =>
      rw [hm] at h
      obtain ⟨pre, post, heq, htok⟩ := ih w h
      exact ⟨c :: pre, post, by simp [heq], htok⟩

/-- Completeness of the email scan: any email-token occurrence makes the
scan succeed. -/
theorem emailScan_isSome (cs : List Char)
    (h : ∃ pre w post, cs = pre ++ w ++ post ∧ IsEmailToken w) :
    (emailScan cs).isSome = true := by
  obtain ⟨pre, w, post, heq, htok⟩ := h
  induction pre generalizing cs with
  | nil =>
    obtain ⟨a, b, ww, hw, ha, hb, hww, hae, hbe, hwe⟩ := htok
    have hcs : cs = (a ++ '@' :: (b ++ '.' :: ww)) ++ post := by
      rw [heq, hw]
      simp
    obtain ⟨c0, cs0, hcons⟩ : ∃ c0 cs0, cs = c0 :: cs0 := by
      rw [hcs]
      cases a with
      | nil => exact absurd rfl ha
      | cons x xs => exact ⟨x, xs ++ '@' :: (b ++ '.' :: ww) ++ post, by simp⟩
    rw [hcons]
    simp only [emailScan]
    cases hm : emailMatchHere (c0 :: cs0) with
    | some m => rfl
    | none =>
      exfalso
      have := emailMatchHere_isSome a b ww post ha hb hww hae hbe hwe
      rw [← hcs, hcons, hm] at this
      cases this
  | cons c pre' ih =>
    obtain ⟨cs', hcs'⟩ : ∃ cs', cs = c :: cs' := by
      rw [heq]
      exact ⟨pre' ++ w ++ post, by simp⟩
    have hcs'' : cs' = pre' ++ w ++ post := by
      have h2 := heq
      rw [hcs'] at h2
      simpa using h2
    rw [hcs']
    simp only [emailScan]
    cases hm : emailMatchHere (c :: cs') with
    | some m => rfl
    | none => exact ih cs' hcs''

/-- **C7** Extraction specification.  Order ids: a text has a
`\b(ORD\d+)\b` occurrence exactly when extraction succeeds; the extracted
value is an occurrence in the text normalized to uppercase (word boundaries
allow arbitrary surrounding punctuation); with no such occurrence the
extraction is `None` and ingest leaves `order_id` unset.  Emails: a text
with a `[\w.-]+@[\w.-]+\.\w+` occurrence yields an extraction, and any
extracted value is an occurrence in the text normalized to lowercase. -/
theorem extraction_spec (t : String) :
    (HasOrdPattern t ↔ (extract_order_id t).isSome = true) ∧
    (∀ m, extract_order_id t = some m →
      ∃ w pre post, t.toList = pre ++ w ++ post ∧ IsOrdToken w ∧
        optNotWord (prevChar none pre) ∧ headNotWord post ∧
        m = String.mk (w.map Char.toUpper)) ∧
    (¬ HasOrdPattern t → extract_order_id t = none) ∧
    (¬ HasOrdPattern t → ∀ s : GraphState, s.ticket_text = t →
      (ingest s).order_id = none) ∧
    (HasEmailPattern t → (extract_email t).isSome = true) ∧
    (∀ m, extract_email t = some m →
      ∃ w pre post, t.toList = pre ++ w ++ post ∧ IsEmailToken w ∧
        m = String.mk (w.map Char.toLower)) := by
  have hsound : ∀ m, extract_order_id t = some m →
      ∃ w pre post, t.toList = pre ++ w ++ post ∧ IsOrdToken w ∧
        optNotWord (prevChar none pre) ∧ headNotWord post ∧
        m = String.mk (w.map Char.toUpper) := by
    intro m hm
    unfold extract_order_id at hm
    cases hscan : scanOrd none t.toList with
    | none => rw [hscan] at hm; cases hm
    | some w =>
      rw [hscan] at hm
      obtain ⟨pre, post, heq, htok, hprev, hpost⟩ := scanOrd_sound t.toList none w hscan
      exact ⟨w, pre, post, heq, htok, hprev, hpost, (Option.some_inj.mp hm).symm⟩
  have hiff : HasOrdPattern t ↔ (extract_order_id t).isSome = true := by
    constructor
    · intro h
      unfold extract_order_id
      have hs := scanOrd_isSome t.toList none h
      cases hscan : scanOrd none t.toList with
      | none => rw [hscan] at hs; cases hs
      | some w => rfl
    · intro h
      obtain ⟨m, hm⟩ := Option.isSome_iff_exists.mp h
      obtain ⟨w, pre, post, heq, htok, hprev, hpost, -⟩ := hsound m hm
      exact ⟨pre, w, post, heq, htok, hprev, hpost⟩
  have hnone : ¬ HasOrdPattern t → extract_order_id t = none := by
    intro h
    cases hx : extract_order_id t with
    | none => rfl
    | some m =>
      exfalso
      exact h (hiff.mpr (by rw [hx]; rfl))
  refine ⟨hiff, hsound, hnone, ?_, ?_, ?_⟩
  · intro h s hts
    have hx : extract_order_id s.ticket_text = none := by
      rw [hts]
      exact hnone h
    cases hno : s.order_details.isNone <;>
      cases hni : (s.issue_type.isNone || s.issue_type == some "unknown") <;>
        cases hy : extract_email s.ticket_text <;>
          simp [ingest, hno, hni, hx, hy]
  · intro h
    obtain ⟨pre, w, post, heq, htok⟩ := h
    unfold extract_email
    have hs := emailScan_isSome t.toList ⟨pre, w, post, heq, htok⟩
    cases hscan : emailScan t.toList with
    | none => rw [hscan] at hs; cases hs
    | some w2 => rfl
  · intro m hm
    unfold extract_email at hm
    cases hscan : emailScan t.toList with
    | none => rw [hscan] at hm; cases hm
    | some w =>
      rw [hscan] at hm
      obtain ⟨pre, post, heq, htok⟩ := emailScan_sound t.toList w hscan
      exact ⟨w, pre, post, heq, htok, (Option.some_inj.mp hm).symm⟩

/-- Witness for `extraction_spec`: a punctuated order id is extracted
uppercased, a pattern-free text yields `None` and an unset `order_id`, and a
mixed-case email is extracted lowercased. -/
theorem extraction_spec_witness :
    extract_order_id "Refund (ord1234)!" = some "ORD1234" ∧
    HasOrdPattern "Refund (ord1234)!" ∧
    (∃ w pre post, ("Refund (ord1234)!" : String).toList = pre ++ w ++ post ∧
      IsOrdToken w ∧ optNotWord (prevChar none pre) ∧ headNotWord post ∧
      "ORD1234" = String.mk (w.map Char.toUpper)) ∧
    extract_order_id "no order here" = none ∧
    (ingest (initState "no order here" none)).order_id = none ∧
    extract_email "contact JOHN.DOE@Example.COM." = some "john.doe@example.com" ∧
    (∃ w pre post,
      ("contact JOHN.DOE@Example.COM." : String).toList = pre ++ w ++ post ∧
      IsEmailToken w ∧ "john.doe@example.com" = String.mk (w.map Char.toLower)) ∧
    (extract_email "see a@b.cd" ).isSome = true := by
  have hne : ¬ HasOrdPattern "no order here" := by
    intro h
    have := (extraction_spec "no order here").1.mp h
    simp [extract_order_id, scanOrd, ordMatchHere, boundaryBefore] at this
  have hemail : HasEmailPattern "see a@b.cd" := by
    refine ⟨['s', 'e', 'e', ' '], ['a', '@', 'b', '.', 'c', 'd'], [], by decide,
      ⟨['a'], ['b'], ['c', 'd'], by decide, ?_, ?_, ?_, ?_, ?_, ?_⟩⟩ <;> decide
  refine ⟨by decide, ?_, ?_, ?_, ?_, by decide, ?_, ?_⟩
  · exact (extraction_spec _).1.mpr (by decide)
  · exact (extraction_spec _).2.1 "ORD1234" (by decide)
  · exact (extraction_spec _).2.2.1 hne
  · exact (extraction_spec _).2.2.2.1 hne (initState "no order here" none) rfl
  · exact (extraction_spec _).2.2.2.2.2 "john.doe@example.com" (by decide)
  · exact (extraction_spec _).2.2.2.2.1 hemail

end Triage
